import Mathlib

/-!
# Provisioning sequences of the LocalStack demo gateway

A shallow embedding of the request handlers in `controllers/*.go`.

* Every AWS client is a record of reply functions.  The reply to a call is what
  the SDK operation returns to the handler, after the attempts the SDK client
  makes on its own; it is a function of the list of operation calls issued
  through that client up to and including that call (the *log*), so a client
  value stands for an arbitrary backend behaviour.
* A handler is a function from its HTTP input, the controller fields and the
  log to its outcome, the updated controller fields and the extended log.
* SDK output fields of pointer type are `Option`s; dereferencing `none` and
  indexing an empty slice are Go run-time panics, outcome `Outcome.panicked`.
* `time.Sleep` has no effect on calls or replies and is left out.
-/

namespace Localstack

/-! ## Shared data -/

/-- Error value returned by an SDK operation: `code` is the service error code,
`text` is the string returned by `err.Error()` (what `%v` prints). -/
structure BackendError where
  code : String
  text : String
deriving DecidableEq, Repr

/-- Value stored under a key of a `gin.H` map or of a struct written as JSON. -/
inductive JVal where
  | str (s : String)
  | int (n : Int)
  | objects (items : List (List (String × String)))
deriving DecidableEq, Repr

/-- Second argument of `c.JSON`: a `gin.H` map or struct, or a slice of structs. -/
inductive Body where
  | object (fields : List (String × JVal))
  | array (items : List (List (String × JVal)))
deriving DecidableEq, Repr

/-- Arguments of one `c.JSON(status, body)` call. -/
structure Response where
  status : Nat
  body : Body
deriving DecidableEq, Repr

/-- Value stored in the body under `key`, if any. -/
def Response.field (r : Response) (key : String) : Option JVal :=
  match r.body with
  | .object fields => fields.lookup key
  | .array _ => none

/-- How a handler ends: it wrote a response, or the goroutine panicked. -/
inductive Outcome where
  | replied (r : Response)
  | panicked
deriving DecidableEq, Repr

/-- Result of a Go function of return type `error`. -/
inductive GoError where
  | nil
  | err (text : String)
  | panicked
deriving DecidableEq, Repr

/-- The calls a request appended to the log: `after` without its first
`before.length` entries. -/
def newCalls {α : Type} (before after : List α) : List α :=
  after.drop before.length

/-- A `for _, x := range xs` loop that appends `f x` to a result slice: the
collected slice, or `none` when the body panics for some element. -/
def collectAll {α β : Type} (f : α → Option β) : List α → Option (List β)
  | [] => some []
  | x :: xs =>
    match f x with
    | none => none
    | some y =>
      match collectAll f xs with
      | none => none
      | some ys => some (y :: ys)

/-- Two texts carry different characters at some position present in both. -/
def differWithin : List Char → List Char → Bool
  | x :: xs, y :: ys => x != y || differWithin xs ys
  | _, _ => false

/-- The response `c.JSON(status, gin.H{"error": msg})`. -/
def errorResponse (status : Nat) (msg : String) : Outcome :=
  .replied ⟨status, .object [("error", .str msg)]⟩

/-! ## controllers/lambda_controller.go -/

/-- Backend calls issued through `lambda.Client`. -/
inductive LambdaCall where
  | GetFunction (FunctionName : String)
  | Invoke (FunctionName : String) (Payload : String)
deriving DecidableEq, Repr

structure FunctionConfiguration where
  State : String
deriving DecidableEq, Repr

structure GetFunctionOutput where
  Configuration : Option FunctionConfiguration
deriving DecidableEq, Repr

structure InvokeOutput where
  StatusCode : Int
  Payload : String
deriving DecidableEq, Repr

/-- The operations of `lambda.Client` used by `InvokeFunction`. -/
structure LambdaClient where
  GetFunction : List LambdaCall → Except BackendError GetFunctionOutput
  Invoke : List LambdaCall → Except BackendError InvokeOutput

/-- Value of `types.StateActive`. -/
def StateActive : String := "Active"

/-- Payload literal sent by `InvokeFunction`. -/
def invokePayload : String := "\x7b\"message\": \"Hello from API Gateway!\"\x7d"

/-- How the `for i := 0; i < 5; i++` loop of `InvokeFunction` is left. -/
inductive PollExit where
  | returned (o : Outcome)
  | finished (functionState : String)
deriving DecidableEq, Repr

/-- The polling loop of `InvokeFunction` with `attemptsLeft = 5 - i` iterations
to go; `functionState` is the variable declared before the loop. -/
def pollLoop (client : LambdaClient) (functionName : String) :
    Nat → String → List LambdaCall → PollExit × List LambdaCall
  | 0, functionState, log => (.finished functionState, log)
  | attemptsLeft + 1, _, log =>
    let log1 := log ++ [.GetFunction functionName]
    match client.GetFunction log1 with
    | .error err =>
      (.returned (errorResponse 500 ("Erro ao verificar estado da função: " ++ err.text)), log1)
    | .ok getFunctionOutput =>
      match getFunctionOutput.Configuration with
      | none => (.returned .panicked, log1)
      | some configuration =>
        if configuration.State = StateActive then
          (.finished configuration.State, log1)
        else
          pollLoop client functionName attemptsLeft configuration.State log1

/-- Handler `LambdaController.InvokeFunction`; `functionName` is `c.Param("name")`. -/
def InvokeFunction (client : LambdaClient) (functionName : String)
    (log : List LambdaCall) : Outcome × List LambdaCall :=
  if functionName = "" then
    (errorResponse 400 "Nome da função é obrigatório", log)
  else
    match pollLoop client functionName 5 "" log with
    | (.returned o, log1) => (o, log1)
    | (.finished functionState, log1) =>
      if functionState ≠ StateActive then
        (errorResponse 500 "Função ainda não está ativa", log1)
      else
        let log2 := log1 ++ [.Invoke functionName invokePayload]
        match client.Invoke log2 with
        | .error err => (errorResponse 500 ("Erro ao invocar função: " ++ err.text), log2)
        | .ok invokeOutput =>
          (.replied ⟨200, .object [("status", .int invokeOutput.StatusCode),
              ("payload", .str invokeOutput.Payload)]⟩, log2)

/-- Number of `GetFunction` calls in a list of calls. -/
def countGetFunction (calls : List LambdaCall) : Nat :=
  (calls.filter fun c => match c with
    | .GetFunction _ => true
    | _ => false).length

/-- Number of `Invoke` calls in a list of calls. -/
def countInvoke (calls : List LambdaCall) : Nat :=
  (calls.filter fun c => match c with
    | .Invoke _ _ => true
    | _ => false).length

/-! ## controllers/apigateway_controller.go -/

/-- Backend calls issued through `apigateway.Client` by `CreateAPI`, with the
input fields the handler sets. -/
inductive ApiCall where
  | CreateRestApi (Name Description : String)
  | GetResources (RestApiId : Option String)
  | CreateResource (RestApiId ParentId : Option String) (PathPart : String)
  | PutMethod (RestApiId ResourceId : Option String) (HttpMethod AuthorizationType : String)
  | PutIntegration (RestApiId ResourceId : Option String)
      (HttpMethod IntegrationType IntegrationHttpMethod Uri : String)
  | PutMethodResponse (RestApiId ResourceId : Option String) (HttpMethod StatusCode : String)
      (ResponseModels : List (String × String))
  | PutIntegrationResponse (RestApiId ResourceId : Option String)
      (HttpMethod StatusCode : String) (ResponseTemplates : List (String × String))
  | CreateDeployment (RestApiId : Option String) (StageName : String)
deriving DecidableEq, Repr

structure CreateRestApiOutput where
  Id : Option String
deriving DecidableEq, Repr

structure Resource where
  Id : Option String
deriving DecidableEq, Repr

structure GetResourcesOutput where
  Items : List Resource
deriving DecidableEq, Repr

structure CreateResourceOutput where
  Id : Option String
deriving DecidableEq, Repr

structure CreateDeploymentOutput where
  Id : Option String
deriving DecidableEq, Repr

/-- The operations of `apigateway.Client` used by `CreateAPI`.  The outputs of
the four `Put...` operations are discarded by the handler. -/
structure ApiGatewayClient where
  CreateRestApi : List ApiCall → Except BackendError CreateRestApiOutput
  GetResources : List ApiCall → Except BackendError GetResourcesOutput
  CreateResource : List ApiCall → Except BackendError CreateResourceOutput
  PutMethod : List ApiCall → Except BackendError Unit
  PutIntegration : List ApiCall → Except BackendError Unit
  PutMethodResponse : List ApiCall → Except BackendError Unit
  PutIntegrationResponse : List ApiCall → Except BackendError Unit
  CreateDeployment : List ApiCall → Except BackendError CreateDeploymentOutput

structure CreateAPIRequest where
  Name : String
  Description : String
deriving DecidableEq, Repr

/-- Integration URI literal of `CreateAPI`. -/
def integrationUri : String :=
  "arn:aws:apigateway:us-east-1:lambda:path/2015-03-31/functions/arn:aws:lambda:us-east-1:000000000000:function:minha-funcao/invocations"

/-- Response template literal of `CreateAPI`. -/
def responseTemplate : String := "\x7b\"message\": \"Hello from API Gateway!\"\x7d"

/-- Handler `APIGatewayController.CreateAPI`; `body` is the result of
`c.ShouldBindJSON(&req)`, `none` when binding fails. -/
def CreateAPI (client : ApiGatewayClient) (body : Option CreateAPIRequest)
    (log : List ApiCall) : Outcome × List ApiCall :=
  match body with
  | none => (errorResponse 400 "Nome da API é obrigatório", log)
  | some req =>
  let log1 := log ++ [.CreateRestApi req.Name req.Description]
  match client.CreateRestApi log1 with
  | .error err => (errorResponse 500 ("Erro ao criar API: " ++ err.text), log1)
  | .ok createAPIOutput =>
  let log2 := log1 ++ [.GetResources createAPIOutput.Id]
  match client.GetResources log2 with
  | .error err => (errorResponse 500 ("Erro ao obter recursos: " ++ err.text), log2)
  | .ok rootResourceOutput =>
  match rootResourceOutput.Items with
  | [] => (.panicked, log2)
  | rootResource :: _ =>
  let log3 := log2 ++ [.CreateResource createAPIOutput.Id rootResource.Id "test"]
  match client.CreateResource log3 with
  | .error err => (errorResponse 500 ("Erro ao criar recurso: " ++ err.text), log3)
  | .ok resourceOutput =>
  let log4 := log3 ++ [.PutMethod createAPIOutput.Id resourceOutput.Id "GET" "NONE"]
  match client.PutMethod log4 with
  | .error err => (errorResponse 500 ("Erro ao criar método: " ++ err.text), log4)
  | .ok _ =>
  let log5 := log4 ++ [.PutIntegration createAPIOutput.Id resourceOutput.Id "GET" "AWS_PROXY"
    "POST" integrationUri]
  match client.PutIntegration log5 with
  | .error err => (errorResponse 500 ("Erro ao configurar integração: " ++ err.text), log5)
  | .ok _ =>
  let log6 := log5 ++ [.PutMethodResponse createAPIOutput.Id resourceOutput.Id "GET" "200"
    [("application/json", "Empty")]]
  match client.PutMethodResponse log6 with
  | .error err => (errorResponse 500 ("Erro ao configurar resposta: " ++ err.text), log6)
  | .ok _ =>
  let log7 := log6 ++ [.PutIntegrationResponse createAPIOutput.Id resourceOutput.Id "GET" "200"
    [("application/json", responseTemplate)]]
  match client.PutIntegrationResponse log7 with
  | .error err =>
    (errorResponse 500 ("Erro ao configurar resposta da integração: " ++ err.text), log7)
  | .ok _ =>
  let log8 := log7 ++ [.CreateDeployment createAPIOutput.Id "test"]
  match client.CreateDeployment log8 with
  | .error err => (errorResponse 500 ("Erro ao criar deployment: " ++ err.text), log8)
  | .ok _ =>
  match createAPIOutput.Id with
  | none => (.panicked, log8)
  | some id =>
    (.replied ⟨200, .object [("message", .str "API criada com sucesso"),
        ("api_id", .str id),
        ("url", .str ("http://localhost:4566/restapis/" ++ id ++ "/test/stages/test"))]⟩,
      log8)

/-- The eight backend calls of `CreateAPI` in source order, for a request `req`
and the identifiers returned by `CreateRestApi`, by the first item of
`GetResources` and by `CreateResource`. -/
def createAPISteps (req : CreateAPIRequest) (apiId rootId resourceId : Option String) :
    List ApiCall :=
  [.CreateRestApi req.Name req.Description,
   .GetResources apiId,
   .CreateResource apiId rootId "test",
   .PutMethod apiId resourceId "GET" "NONE",
   .PutIntegration apiId resourceId "GET" "AWS_PROXY" "POST" integrationUri,
   .PutMethodResponse apiId resourceId "GET" "200" [("application/json", "Empty")],
   .PutIntegrationResponse apiId resourceId "GET" "200" [("application/json", responseTemplate)],
   .CreateDeployment apiId "test"]

/-- Text placed before the backend error in the message of the `k`-th step. -/
def createAPIErrorPrefix : Nat → String
  | 1 => "Erro ao criar API: "
  | 2 => "Erro ao obter recursos: "
  | 3 => "Erro ao criar recurso: "
  | 4 => "Erro ao criar método: "
  | 5 => "Erro ao configurar integração: "
  | 6 => "Erro ao configurar resposta: "
  | 7 => "Erro ao configurar resposta da integração: "
  | 8 => "Erro ao criar deployment: "
  | _ => ""

/-- The error of a backend reply, `none` for a successful reply. -/
def replyError {α : Type} (r : Except BackendError α) : Option BackendError :=
  match r with
  | .error e => some e
  | .ok _ => none

/-- The error returned by the backend for `call` issued after `before`, `none`
when the call succeeds. -/
def ApiGatewayClient.failure (client : ApiGatewayClient) (before : List ApiCall)
    (call : ApiCall) : Option BackendError :=
  match call with
  | .CreateRestApi .. => replyError (client.CreateRestApi (before ++ [call]))
  | .GetResources .. => replyError (client.GetResources (before ++ [call]))
  | .CreateResource .. => replyError (client.CreateResource (before ++ [call]))
  | .PutMethod .. => replyError (client.PutMethod (before ++ [call]))
  | .PutIntegration .. => replyError (client.PutIntegration (before ++ [call]))
  | .PutMethodResponse .. => replyError (client.PutMethodResponse (before ++ [call]))
  | .PutIntegrationResponse .. => replyError (client.PutIntegrationResponse (before ++ [call]))
  | .CreateDeployment .. => replyError (client.CreateDeployment (before ++ [call]))

/-- Steps `1..k-1` of `CreateAPI` succeed and step `k` fails with `e`, for a
request `req` issued after `log`; `apiId`, `rootId` and `resourceId` are the ids
returned by `CreateRestApi`, by the first item of `GetResources` and by
`CreateResource` when those steps come before step `k`. -/
def FailsAtStep (client : ApiGatewayClient) (req : CreateAPIRequest) (log : List ApiCall)
    (k : Nat) (apiId rootId resourceId : Option String) (e : BackendError) : Prop :=
  1 ≤ k ∧ k ≤ 8 ∧
  (1 < k → client.CreateRestApi
    (log ++ (createAPISteps req apiId rootId resourceId).take 1) = .ok ⟨apiId⟩) ∧
  (2 < k → ∃ rest, client.GetResources
    (log ++ (createAPISteps req apiId rootId resourceId).take 2) = .ok ⟨⟨rootId⟩ :: rest⟩) ∧
  (3 < k → client.CreateResource
    (log ++ (createAPISteps req apiId rootId resourceId).take 3) = .ok ⟨resourceId⟩) ∧
  (∀ j call, j + 1 < k → (createAPISteps req apiId rootId resourceId)[j]? = some call →
    client.failure (log ++ (createAPISteps req apiId rootId resourceId).take j) call = none) ∧
  (∃ call, (createAPISteps req apiId rootId resourceId)[k - 1]? = some call ∧
    client.failure (log ++ (createAPISteps req apiId rootId resourceId).take (k - 1)) call
      = some e)

/-- The text under the key `error` of a response, if the handler wrote one. -/
def Outcome.errorMessage (o : Outcome) : Option String :=
  match o with
  | .replied r =>
    match r.field "error" with
    | some (.str msg) => some msg
    | _ => none
  | .panicked => none

/-! ## controllers/s3_controller.go -/

/-- Backend calls issued through `s3.Client`. -/
inductive S3Call where
  | CreateBucket (Bucket LocationConstraint : String)
  | PutObject (Bucket Key Body : String)
deriving DecidableEq, Repr

/-- The operations of `s3.Client` used by the controller; both outputs are
discarded. -/
structure S3Client where
  CreateBucket : List S3Call → Except BackendError Unit
  PutObject : List S3Call → Except BackendError Unit

/-- Function `isBucketAlreadyExistsError`; the argument is a Go `error`, `none`
for `nil`. -/
def isBucketAlreadyExistsError (err : Option BackendError) : Bool :=
  match err with
  | none => false
  | some e =>
    if e.text = "BucketAlreadyOwnedByYou" then
      true
    else
      false

/-- Method `S3Controller.setupBucket`. -/
def setupBucket (client : S3Client) (log : List S3Call) : GoError × List S3Call :=
  let log1 := log ++ [.CreateBucket "demo-bucket" "sa-east-1"]
  match client.CreateBucket log1 with
  | .error err =>
    if !isBucketAlreadyExistsError (some err) then
      (.err ("erro ao criar bucket S3: " ++ err.text), log1)
    else
      (.nil, log1)
  | .ok _ => (.nil, log1)

/-- The multipart file of a request: its name and what `file.Open()` yields,
`none` when opening fails. -/
structure FileHeader where
  Filename : String
  content : Option String
deriving DecidableEq, Repr

/-- Handler `S3Controller.UploadFile`; `formFile` is the result of
`c.FormFile("file")`, `none` when the form has no such file. -/
def UploadFile (client : S3Client) (formFile : Option FileHeader) (log : List S3Call) :
    Outcome × List S3Call :=
  match setupBucket client log with
  | (.err text, log1) => (errorResponse 500 text, log1)
  | (.panicked, log1) => (.panicked, log1)
  | (.nil, log1) =>
    match formFile with
    | none => (errorResponse 400 "Arquivo não encontrado no formulário", log1)
    | some file =>
      match file.content with
      | none => (errorResponse 500 "Erro ao abrir arquivo", log1)
      | some src =>
        let log2 := log1 ++ [.PutObject "demo-bucket" file.Filename src]
        match client.PutObject log2 with
        | .error err => (errorResponse 500 ("Erro ao fazer upload: " ++ err.text), log2)
        | .ok _ =>
          (.replied ⟨200, .object [("message",
            .str ("Arquivo " ++ file.Filename ++ " enviado com sucesso"))]⟩, log2)

/-- Number of `CreateBucket` calls in a list of calls. -/
def countCreateBucket (calls : List S3Call) : Nat :=
  (calls.filter fun c => match c with
    | .CreateBucket _ _ => true
    | _ => false).length

/-! ## controllers/sns_controller.go -/

/-- Backend calls issued through `sns.Client`. -/
inductive SnsCall where
  | CreateTopic (Name : String)
  | Subscribe (TopicArn Protocol Endpoint : String)
  | Publish (TopicArn Message Subject : String)
  | ListSubscriptionsByTopic (TopicArn : String)
deriving DecidableEq, Repr

structure CreateTopicOutput where
  TopicArn : Option String
deriving DecidableEq, Repr

structure Subscription where
  Endpoint : Option String
  Protocol : Option String
  SubscriptionArn : Option String
deriving DecidableEq, Repr

structure ListSubscriptionsByTopicOutput where
  Subscriptions : List Subscription
deriving DecidableEq, Repr

/-- The operations of `sns.Client` used by the controller. -/
structure SnsClient where
  CreateTopic : List SnsCall → Except BackendError CreateTopicOutput
  Subscribe : List SnsCall → Except BackendError Unit
  Publish : List SnsCall → Except BackendError Unit
  ListSubscriptionsByTopic : List SnsCall → Except BackendError ListSubscriptionsByTopicOutput

/-- The mutable fields of `SNSController`. -/
structure SNSController where
  topicARN : String
  topicName : String
deriving DecidableEq, Repr

/-- Fields set by `NewSNSController`. -/
def NewSNSController : SNSController :=
  { topicARN := "", topicName := "demo-topic" }

/-- Method `SNSController.setupTopic`. -/
def setupTopic (client : SnsClient) (s : SNSController) (log : List SnsCall) :
    GoError × SNSController × List SnsCall :=
  let log1 := log ++ [.CreateTopic s.topicName]
  match client.CreateTopic log1 with
  | .error err => (.err ("erro ao criar tópico SNS: " ++ err.text), s, log1)
  | .ok createTopicOutput =>
    match createTopicOutput.TopicArn with
    | none => (.panicked, s, log1)
    | some topicArn =>
      let s1 := { s with topicARN := topicArn }
      let log2 := log1 ++ [.Subscribe s1.topicARN "email" "test@example.com"]
      match client.Subscribe log2 with
      | .error err => (.err ("erro ao criar inscrição padrão: " ++ err.text), s1, log2)
      | .ok _ => (.nil, s1, log2)

/-- The guard `if s.topicARN == "" { if err := s.setupTopic(); err != nil ... }`
that opens the three SNS handlers: the error to report, if any. -/
def topicGuard (client : SnsClient) (s : SNSController) (log : List SnsCall) :
    GoError × SNSController × List SnsCall :=
  if s.topicARN = "" then
    setupTopic client s log
  else
    (.nil, s, log)

structure PublishMessageRequest where
  Message : String
  Subject : String
deriving DecidableEq, Repr

/-- Handler `SNSController.PublishMessage`. -/
def PublishMessage (client : SnsClient) (s : SNSController)
    (body : Option PublishMessageRequest) (log : List SnsCall) :
    Outcome × SNSController × List SnsCall :=
  match topicGuard client s log with
  | (.err text, s1, log1) => (errorResponse 500 text, s1, log1)
  | (.panicked, s1, log1) => (.panicked, s1, log1)
  | (.nil, s1, log1) =>
    match body with
    | none => (errorResponse 400 "Mensagem e assunto são obrigatórios", s1, log1)
    | some req =>
      let log2 := log1 ++ [.Publish s1.topicARN req.Message req.Subject]
      match client.Publish log2 with
      | .error err =>
        (errorResponse 500 ("Erro ao publicar mensagem: " ++ err.text), s1, log2)
      | .ok _ =>
        (.replied ⟨200, .object [("message", .str "Mensagem publicada com sucesso"),
          ("topic", .str s1.topicName)]⟩, s1, log2)

structure SubscribeRequest where
  Protocol : String
  Endpoint : String
deriving DecidableEq, Repr

/-- Handler `SNSController.Subscribe`. -/
def Subscribe (client : SnsClient) (s : SNSController)
    (body : Option SubscribeRequest) (log : List SnsCall) :
    Outcome × SNSController × List SnsCall :=
  match topicGuard client s log with
  | (.err text, s1, log1) => (errorResponse 500 text, s1, log1)
  | (.panicked, s1, log1) => (.panicked, s1, log1)
  | (.nil, s1, log1) =>
    match body with
    | none => (errorResponse 400 "Protocolo e endpoint são obrigatórios", s1, log1)
    | some req =>
      let log2 := log1 ++ [.Subscribe s1.topicARN req.Protocol req.Endpoint]
      match client.Subscribe log2 with
      | .error err =>
        (errorResponse 500 ("Erro ao criar inscrição: " ++ err.text), s1, log2)
      | .ok _ =>
        (.replied ⟨200, .object [("message", .str "Inscrição criada com sucesso"),
          ("topic", .str s1.topicName)]⟩, s1, log2)

/-- The loop body of `ListSubscriptions`: one map per subscription, `none` when
a dereferenced field is `nil`. -/
def subscriptionEntry (sub : Subscription) : Option (List (String × String)) :=
  match sub.Endpoint, sub.Protocol, sub.SubscriptionArn with
  | some endpoint, some protocol, some arn =>
    some [("endpoint", endpoint), ("protocol", protocol), ("arn", arn)]
  | _, _, _ => none

/-- Handler `SNSController.ListSubscriptions`. -/
def ListSubscriptions (client : SnsClient) (s : SNSController) (log : List SnsCall) :
    Outcome × SNSController × List SnsCall :=
  match topicGuard client s log with
  | (.err text, s1, log1) => (errorResponse 500 text, s1, log1)
  | (.panicked, s1, log1) => (.panicked, s1, log1)
  | (.nil, s1, log1) =>
    let log2 := log1 ++ [.ListSubscriptionsByTopic s1.topicARN]
    match client.ListSubscriptionsByTopic log2 with
    | .error err =>
      (errorResponse 500 ("Erro ao listar inscrições: " ++ err.text), s1, log2)
    | .ok result =>
      match collectAll subscriptionEntry result.Subscriptions with
      | none => (.panicked, s1, log2)
      | some subscriptions =>
        (.replied ⟨200, .object [("topic", .str s1.topicName),
          ("subscriptions", .objects subscriptions)]⟩, s1, log2)

/-- A request routed to the SNS controller by `SetupRoutes`. -/
inductive SnsRequest where
  | publish (body : Option PublishMessageRequest)
  | subscribe (body : Option SubscribeRequest)
  | subscriptions
deriving DecidableEq, Repr

/-- Dispatch of the `/sns` route group. -/
def snsRoute (client : SnsClient) (s : SNSController) (req : SnsRequest)
    (log : List SnsCall) : Outcome × SNSController × List SnsCall :=
  match req with
  | .publish body => PublishMessage client s body log
  | .subscribe body => Subscribe client s body log
  | .subscriptions => ListSubscriptions client s log

/-- Number of `Subscribe` calls in a list of calls. -/
def countSubscribe (calls : List SnsCall) : Nat :=
  (calls.filter fun c => match c with
    | .Subscribe _ _ _ => true
    | _ => false).length

/-- Number of `CreateTopic` calls in a list of calls. -/
def countCreateTopic (calls : List SnsCall) : Nat :=
  (calls.filter fun c => match c with
    | .CreateTopic _ => true
    | _ => false).length

/-! ## controllers/sqs_controller.go -/

/-- Backend calls issued through `sqs.Client`. -/
inductive SqsCall where
  | CreateQueue (QueueName : String)
  | SendMessage (QueueUrl MessageBody : String)
  | ReceiveMessage (QueueUrl : String) (MaxNumberOfMessages WaitTimeSeconds : Nat)
  | DeleteMessage (QueueUrl : String) (ReceiptHandle : Option String)
deriving DecidableEq, Repr

structure CreateQueueOutput where
  QueueUrl : Option String
deriving DecidableEq, Repr

structure Message where
  Body : Option String
  ReceiptHandle : Option String
deriving DecidableEq, Repr

structure ReceiveMessageOutput where
  Messages : List Message
deriving DecidableEq, Repr

/-- The operations of `sqs.Client` used by the controller. -/
structure SqsClient where
  CreateQueue : List SqsCall → Except BackendError CreateQueueOutput
  SendMessage : List SqsCall → Except BackendError Unit
  ReceiveMessage : List SqsCall → Except BackendError ReceiveMessageOutput
  DeleteMessage : List SqsCall → Except BackendError Unit

/-- The mutable fields of `SQSController`. -/
structure SQSController where
  queueURL : String
  queueName : String
deriving DecidableEq, Repr

/-- Fields set by `NewSQSController`. -/
def NewSQSController : SQSController :=
  { queueURL := "", queueName := "demo-queue" }

/-- Method `SQSController.setupQueue`. -/
def setupQueue (client : SqsClient) (s : SQSController) (log : List SqsCall) :
    GoError × SQSController × List SqsCall :=
  let log1 := log ++ [.CreateQueue s.queueName]
  match client.CreateQueue log1 with
  | .error err => (.err ("erro ao criar fila SQS: " ++ err.text), s, log1)
  | .ok createQueueOutput =>
    match createQueueOutput.QueueUrl with
    | none => (.panicked, s, log1)
    | some queueUrl => (.nil, { s with queueURL := queueUrl }, log1)

/-- The guard `if s.queueURL == "" { if err := s.setupQueue(); err != nil ... }`
that opens the two SQS handlers: the error to report, if any. -/
def queueGuard (client : SqsClient) (s : SQSController) (log : List SqsCall) :
    GoError × SQSController × List SqsCall :=
  if s.queueURL = "" then
    setupQueue client s log
  else
    (.nil, s, log)

structure SendMessageRequest where
  Message : String
deriving DecidableEq, Repr

/-- Handler `SQSController.SendMessage`. -/
def SendMessage (client : SqsClient) (s : SQSController)
    (body : Option SendMessageRequest) (log : List SqsCall) :
    Outcome × SQSController × List SqsCall :=
  match queueGuard client s log with
  | (.err text, s1, log1) => (errorResponse 500 text, s1, log1)
  | (.panicked, s1, log1) => (.panicked, s1, log1)
  | (.nil, s1, log1) =>
    match body with
    | none => (errorResponse 400 "Mensagem é obrigatória", s1, log1)
    | some req =>
      let log2 := log1 ++ [.SendMessage s1.queueURL req.Message]
      match client.SendMessage log2 with
      | .error err =>
        (errorResponse 500 ("Erro ao enviar mensagem: " ++ err.text), s1, log2)
      | .ok _ =>
        (.replied ⟨200, .object [("message", .str "Mensagem enviada com sucesso")]⟩, s1, log2)

/-- Handler `SQSController.ReceiveMessage`. -/
def ReceiveMessage (client : SqsClient) (s : SQSController) (log : List SqsCall) :
    Outcome × SQSController × List SqsCall :=
  match queueGuard client s log with
  | (.err text, s1, log1) => (errorResponse 500 text, s1, log1)
  | (.panicked, s1, log1) => (.panicked, s1, log1)
  | (.nil, s1, log1) =>
    let log2 := log1 ++ [.ReceiveMessage s1.queueURL 1 20]
    match client.ReceiveMessage log2 with
    | .error err =>
      (errorResponse 500 ("Erro ao receber mensagem: " ++ err.text), s1, log2)
    | .ok result =>
      match result.Messages with
      | [] => (.replied ⟨200, .object [("message", .str "Nenhuma mensagem na fila")]⟩, s1, log2)
      | first :: _ =>
        let log3 := log2 ++ [.DeleteMessage s1.queueURL first.ReceiptHandle]
        match client.DeleteMessage log3 with
        | .error err =>
          (errorResponse 500 ("Erro ao deletar mensagem: " ++ err.text), s1, log3)
        | .ok _ =>
          match first.Body with
          | none => (.panicked, s1, log3)
          | some text => (.replied ⟨200, .object [("message", .str text)]⟩, s1, log3)

/-- A request routed to the SQS controller by `SetupRoutes`. -/
inductive SqsRequest where
  | send (body : Option SendMessageRequest)
  | receive
deriving DecidableEq, Repr

/-- Dispatch of the `/sqs` route group. -/
def sqsRoute (client : SqsClient) (s : SQSController) (req : SqsRequest)
    (log : List SqsCall) : Outcome × SQSController × List SqsCall :=
  match req with
  | .send body => SendMessage client s body log
  | .receive => ReceiveMessage client s log

/-- The queue URL a call is addressed to; `CreateQueue` carries none. -/
def SqsCall.queueUrlOf : SqsCall → Option String
  | .CreateQueue _ => none
  | .SendMessage url _ => some url
  | .ReceiveMessage url _ _ => some url
  | .DeleteMessage url _ => some url

/-- Number of `CreateQueue` calls in a list of calls. -/
def countCreateQueue (calls : List SqsCall) : Nat :=
  (calls.filter fun c => match c with
    | .CreateQueue _ => true
    | _ => false).length

/-! ## controllers/dynamodb_controller.go -/

/-- Backend calls issued through `dynamodb.Client`.  `WaitTableExists` is the
call `dynamodb.NewTableExistsWaiter(d.client).Wait(...)`; the `DescribeTable`
polling inside the SDK waiter is not part of this repository. -/
inductive DynamoCall where
  | DescribeTable (TableName : String)
  | CreateTable (TableName AttributeName AttributeType KeyAttributeName KeyType : String)
      (ReadCapacityUnits WriteCapacityUnits : Nat)
  | WaitTableExists (TableName : String) (maxWaitSeconds : Nat)
  | PutItem (TableName : String) (Item : List (String × String))
  | GetItem (TableName id : String)
  | UpdateItem (TableName id name email employeeNumber : String)
  | DeleteItem (TableName id : String)
  | Scan (TableName : String)
deriving DecidableEq, Repr

/-- A `types.AttributeValue`: the string member, or any other member. -/
inductive AttributeValue where
  | S (Value : String)
  | other
deriving DecidableEq, Repr

structure GetItemOutput where
  Item : Option (List (String × AttributeValue))
deriving DecidableEq, Repr

structure ScanOutput where
  Items : List (List (String × AttributeValue))
deriving DecidableEq, Repr

/-- The operations of `dynamodb.Client` used by the controller. -/
structure DynamoClient where
  DescribeTable : List DynamoCall → Except BackendError Unit
  CreateTable : List DynamoCall → Except BackendError Unit
  WaitTableExists : List DynamoCall → Except BackendError Unit
  PutItem : List DynamoCall → Except BackendError Unit
  GetItem : List DynamoCall → Except BackendError GetItemOutput
  UpdateItem : List DynamoCall → Except BackendError Unit
  DeleteItem : List DynamoCall → Except BackendError Unit
  Scan : List DynamoCall → Except BackendError ScanOutput

/-- Method `DynamoDBController.setupTable`. -/
def setupTable (client : DynamoClient) (log : List DynamoCall) : GoError × List DynamoCall :=
  let log1 := log ++ [.DescribeTable "users"]
  match client.DescribeTable log1 with
  | .ok _ => (.nil, log1)
  | .error _ =>
    let log2 := log1 ++ [.CreateTable "users" "id" "S" "id" "HASH" 5 5]
    match client.CreateTable log2 with
    | .error err => (.err ("erro ao criar tabela: " ++ err.text), log2)
    | .ok _ =>
      let log3 := log2 ++ [.WaitTableExists "users" 30]
      match client.WaitTableExists log3 with
      | .error err => (.err ("erro ao esperar tabela ficar ativa: " ++ err.text), log3)
      | .ok _ => (.nil, log3)

structure User where
  ID : String
  Name : String
  Email : String
  EmployeeNumber : String
  CreatedAt : String
deriving DecidableEq, Repr

/-- The JSON object written for a `User`. -/
def User.json (u : User) : List (String × JVal) :=
  [("id", .str u.ID), ("name", .str u.Name), ("email", .str u.Email),
   ("employee_number", .str u.EmployeeNumber), ("created_at", .str u.CreatedAt)]

/-- The expression `item[key].(*types.AttributeValueMemberS).Value`; `none` when
the type assertion panics. -/
def stringAttr (item : List (String × AttributeValue)) (key : String) : Option String :=
  match item.lookup key with
  | some (.S v) => some v
  | _ => none

/-- The `User{...}` literal built from an item; `none` when a type assertion
panics. -/
def userOfItem (item : List (String × AttributeValue)) : Option User :=
  match stringAttr item "id", stringAttr item "name", stringAttr item "email",
    stringAttr item "employee_number", stringAttr item "created_at" with
  | some id, some name, some email, some employeeNumber, some createdAt =>
    some ⟨id, name, email, employeeNumber, createdAt⟩
  | _, _, _, _, _ => none

/-- Handler `DynamoDBController.CreateUser`; `body` is the bound JSON, `newId`
and `now` are the values of `uuid.New().String()` and of the formatted clock. -/
def CreateUser (client : DynamoClient) (body : Option User) (newId now : String)
    (log : List DynamoCall) : Outcome × List DynamoCall :=
  match setupTable client log with
  | (.err text, log1) => (errorResponse 500 text, log1)
  | (.panicked, log1) => (.panicked, log1)
  | (.nil, log1) =>
    match body with
    | none => (errorResponse 400 "Dados inválidos", log1)
    | some bound =>
      let user := { bound with ID := newId, CreatedAt := now }
      let log2 := log1 ++ [.PutItem "users" [("id", user.ID), ("name", user.Name),
        ("email", user.Email), ("employee_number", user.EmployeeNumber),
        ("created_at", user.CreatedAt)]]
      match client.PutItem log2 with
      | .error err => (errorResponse 500 ("Erro ao criar usuário: " ++ err.text), log2)
      | .ok _ => (.replied ⟨201, .object user.json⟩, log2)

/-- Handler `DynamoDBController.GetUser`; `id` is `c.Param("id")`. -/
def GetUser (client : DynamoClient) (id : String) (log : List DynamoCall) :
    Outcome × List DynamoCall :=
  match setupTable client log with
  | (.err text, log1) => (errorResponse 500 text, log1)
  | (.panicked, log1) => (.panicked, log1)
  | (.nil, log1) =>
    if id = "" then
      (errorResponse 400 "ID é obrigatório", log1)
    else
      let log2 := log1 ++ [.GetItem "users" id]
      match client.GetItem log2 with
      | .error err => (errorResponse 500 ("Erro ao buscar usuário: " ++ err.text), log2)
      | .ok result =>
        match result.Item with
        | none => (errorResponse 404 "Usuário não encontrado", log2)
        | some item =>
          match userOfItem item with
          | none => (.panicked, log2)
          | some user => (.replied ⟨200, .object user.json⟩, log2)

/-- Handler `DynamoDBController.UpdateUser`. -/
def UpdateUser (client : DynamoClient) (id : String) (body : Option User)
    (log : List DynamoCall) : Outcome × List DynamoCall :=
  match setupTable client log with
  | (.err text, log1) => (errorResponse 500 text, log1)
  | (.panicked, log1) => (.panicked, log1)
  | (.nil, log1) =>
    if id = "" then
      (errorResponse 400 "ID é obrigatório", log1)
    else
      match body with
      | none => (errorResponse 400 "Dados inválidos", log1)
      | some user =>
        let log2 := log1 ++ [.UpdateItem "users" id user.Name user.Email user.EmployeeNumber]
        match client.UpdateItem log2 with
        | .error err => (errorResponse 500 ("Erro ao atualizar usuário: " ++ err.text), log2)
        | .ok _ =>
          let log3 := log2 ++ [.GetItem "users" id]
          match client.GetItem log3 with
          | .error err =>
            (errorResponse 500 ("Erro ao buscar usuário atualizado: " ++ err.text), log3)
          | .ok result =>
            match userOfItem (result.Item.getD []) with
            | none => (.panicked, log3)
            | some updatedUser => (.replied ⟨200, .object updatedUser.json⟩, log3)

/-- Handler `DynamoDBController.DeleteUser`. -/
def DeleteUser (client : DynamoClient) (id : String) (log : List DynamoCall) :
    Outcome × List DynamoCall :=
  match setupTable client log with
  | (.err text, log1) => (errorResponse 500 text, log1)
  | (.panicked, log1) => (.panicked, log1)
  | (.nil, log1) =>
    if id = "" then
      (errorResponse 400 "ID é obrigatório", log1)
    else
      let log2 := log1 ++ [.DeleteItem "users" id]
      match client.DeleteItem log2 with
      | .error err => (errorResponse 500 ("Erro ao deletar usuário: " ++ err.text), log2)
      | .ok _ =>
        (.replied ⟨200, .object [("message", .str "Usuário deletado com sucesso")]⟩, log2)

/-- Handler `DynamoDBController.ListUsers`. -/
def ListUsers (client : DynamoClient) (log : List DynamoCall) : Outcome × List DynamoCall :=
  match setupTable client log with
  | (.err text, log1) => (errorResponse 500 text, log1)
  | (.panicked, log1) => (.panicked, log1)
  | (.nil, log1) =>
    let log2 := log1 ++ [.Scan "users"]
    match client.Scan log2 with
    | .error err => (errorResponse 500 ("Erro ao listar usuários: " ++ err.text), log2)
    | .ok result =>
      match collectAll userOfItem result.Items with
      | none => (.panicked, log2)
      | some users => (.replied ⟨200, .array (users.map User.json)⟩, log2)

/-- A request served by one of the five handlers of `DynamoDBController`. -/
inductive DynamoRequest where
  | createUser (body : Option User) (newId now : String)
  | getUser (id : String)
  | updateUser (id : String) (body : Option User)
  | deleteUser (id : String)
  | listUsers
deriving DecidableEq, Repr

/-- The handler run for a request. -/
def dynamoHandle (client : DynamoClient) (req : DynamoRequest) (log : List DynamoCall) :
    Outcome × List DynamoCall :=
  match req with
  | .createUser body newId now => CreateUser client body newId now log
  | .getUser id => GetUser client id log
  | .updateUser id body => UpdateUser client id body log
  | .deleteUser id => DeleteUser client id log
  | .listUsers => ListUsers client log

/-- The provisioning calls of the table-ensure sequence. -/
def DynamoCall.isProvisioning : DynamoCall → Bool
  | .DescribeTable _ => true
  | .CreateTable .. => true
  | .WaitTableExists .. => true
  | _ => false

/-! ## Concurrent requests on one `SQSController`

`SetupRoutes` registers the methods of a single `SQSController` as handlers, and
the HTTP server runs every request in a goroutine of its own; the controller
takes no lock.  A goroutine is modelled by its position in `SendMessage` or
`ReceiveMessage`.  One step is one access to the field `queueURL` or one backend
call together with the handling of its reply; a schedule chooses which goroutine
takes the next step. -/

/-- What the goroutines share: the controller fields and the backend log. -/
structure SqsShared where
  controller : SQSController
  log : List SqsCall

/-- The position of one goroutine in `SendMessage` or `ReceiveMessage`:
`start`, before the test `s.queueURL == ""`; `creating`, inside `setupQueue`
before `CreateQueue`; `created`, with the reply of `CreateQueue` before the error
test and the assignment to `s.queueURL`; `ready`, after the guard; `deleting`,
in `ReceiveMessage` before `DeleteMessage`; `done`, after the handler ended. -/
inductive SqsTask where
  | start (req : SqsRequest)
  | creating (req : SqsRequest)
  | created (req : SqsRequest) (reply : Except BackendError CreateQueueOutput)
  | ready (req : SqsRequest)
  | deleting (first : Message)
  | done (o : Outcome)

/-- One step of one goroutine. -/
def stepTask (client : SqsClient) (sh : SqsShared) : SqsTask → SqsShared × SqsTask
  | .start req =>
    if sh.controller.queueURL = "" then
      (sh, .creating req)
    else
      (sh, .ready req)
  | .creating req =>
    let log1 := sh.log ++ [.CreateQueue sh.controller.queueName]
    ({ sh with log := log1 }, .created req (client.CreateQueue log1))
  | .created _ (.error err) =>
    (sh, .done (errorResponse 500 ("erro ao criar fila SQS: " ++ err.text)))
  | .created req (.ok createQueueOutput) =>
    match createQueueOutput.QueueUrl with
    | none => (sh, .done .panicked)
    | some queueUrl =>
      ({ sh with controller := { sh.controller with queueURL := queueUrl } }, .ready req)
  | .ready (.send none) => (sh, .done (errorResponse 400 "Mensagem é obrigatória"))
  | .ready (.send (some req)) =>
    let log2 := sh.log ++ [.SendMessage sh.controller.queueURL req.Message]
    match client.SendMessage log2 with
    | .error err =>
      ({ sh with log := log2 },
        .done (errorResponse 500 ("Erro ao enviar mensagem: " ++ err.text)))
    | .ok _ =>
      ({ sh with log := log2 },
        .done (.replied ⟨200, .object [("message", .str "Mensagem enviada com sucesso")]⟩))
  | .ready .receive =>
    let log2 := sh.log ++ [.ReceiveMessage sh.controller.queueURL 1 20]
    match client.ReceiveMessage log2 with
    | .error err =>
      ({ sh with log := log2 },
        .done (errorResponse 500 ("Erro ao receber mensagem: " ++ err.text)))
    | .ok result =>
      match result.Messages with
      | [] =>
        ({ sh with log := log2 },
          .done (.replied ⟨200, .object [("message", .str "Nenhuma mensagem na fila")]⟩))
      | first :: _ => ({ sh with log := log2 }, .deleting first)
  | .deleting first =>
    let log3 := sh.log ++ [.DeleteMessage sh.controller.queueURL first.ReceiptHandle]
    match client.DeleteMessage log3 with
    | .error err =>
      ({ sh with log := log3 },
        .done (errorResponse 500 ("Erro ao deletar mensagem: " ++ err.text)))
    | .ok _ =>
      match first.Body with
      | none => ({ sh with log := log3 }, .done .panicked)
      | some text =>
        ({ sh with log := log3 }, .done (.replied ⟨200, .object [("message", .str text)]⟩))
  | .done o => (sh, .done o)

/-- The goroutine at position `i` of the list takes one step; an index outside
the list changes nothing. -/
def stepAt (client : SqsClient) : Nat → SqsShared → List SqsTask → SqsShared × List SqsTask
  | _, sh, [] => (sh, [])
  | 0, sh, task :: tasks =>
    ((stepTask client sh task).1, (stepTask client sh task).2 :: tasks)
  | i + 1, sh, task :: tasks =>
    ((stepAt client i sh tasks).1, task :: (stepAt client i sh tasks).2)

/-- The goroutines take steps in the order given by the schedule. -/
def runTasks (client : SqsClient) : List Nat → SqsShared → List SqsTask →
    SqsShared × List SqsTask
  | [], sh, tasks => (sh, tasks)
  | i :: schedule, sh, tasks =>
    runTasks client schedule (stepAt client i sh tasks).1 (stepAt client i sh tasks).2

/-- A goroutine that has not yet called `CreateQueue` and may still do so. -/
def SqsTask.pending : SqsTask → Nat
  | .start _ => 1
  | .creating _ => 1
  | _ => 0

/-- A goroutine that is not inside `setupQueue`. -/
def SqsTask.outsideSetup : SqsTask → Bool
  | .creating _ => false
  | .created _ _ => false
  | _ => true

/-- The number of goroutines in a list that may still call `CreateQueue` for the
first time. -/
def pendingCount (tasks : List SqsTask) : Nat :=
  (tasks.map SqsTask.pending).sum

/-! ## config/aws_config.go: the retrying SDK clients -/

/-- Modelled from the spec: the retry policy of the SDK clients that the
controllers build from `config.GetAWSConfig`; the configuration sets no retryer
of its own and the SDK retryer is not under `src/`.  Section 4.3 of the spec: a
`Transient` failure ("backend temporarily unavailable or rate-limited") is
"eligible for a bounded retry of the single Step (not the whole Plan)".
`maxAttempts` bounds the attempts of one operation call; `isTransient` tells
which errors are retried. -/
structure Retryer where
  maxAttempts : Nat
  isTransient : BackendError → Bool

/-- Modelled from the spec: the attempts of one operation call under a retryer.
`attempt n` is the backend's reply to the `n`-th attempt (from 0) of the call.
With `more` further attempts allowed, a transient error leads to the next
attempt; any other reply, and the reply of the last allowed attempt, is the
result of the call.  The second component is the number of attempts made. -/
def retryLoop {α : Type} (r : Retryer) (attempt : Nat → Except BackendError α) :
    Nat → Nat → Except BackendError α × Nat
  | 0, n => (attempt n, n + 1)
  | more + 1, n =>
    match attempt n with
    | .ok a => (.ok a, n + 1)
    | .error e =>
      if r.isTransient e then
        retryLoop r attempt more (n + 1)
      else
        (.error e, n + 1)

/-- Modelled from the spec: one operation call under a retryer, at least one and
at most `maxAttempts` attempts. -/
def withRetry {α : Type} (r : Retryer) (attempt : Nat → Except BackendError α) :
    Except BackendError α × Nat :=
  retryLoop r attempt (r.maxAttempts - 1) 0

/-- The SQS backend seen attempt by attempt: the reply to the `n`-th attempt of
the operation call that ends the log. -/
structure SqsWire where
  CreateQueue : List SqsCall → Nat → Except BackendError CreateQueueOutput
  SendMessage : List SqsCall → Nat → Except BackendError Unit
  ReceiveMessage : List SqsCall → Nat → Except BackendError ReceiveMessageOutput
  DeleteMessage : List SqsCall → Nat → Except BackendError Unit

/-- Modelled from the spec: the `sqs.Client` of the controller, every operation
call run under the retryer. -/
def retryingSqsClient (r : Retryer) (wire : SqsWire) : SqsClient where
  CreateQueue := fun log => (withRetry r (wire.CreateQueue log)).1
  SendMessage := fun log => (withRetry r (wire.SendMessage log)).1
  ReceiveMessage := fun log => (withRetry r (wire.ReceiveMessage log)).1
  DeleteMessage := fun log => (withRetry r (wire.DeleteMessage log)).1

/-- The SNS backend seen attempt by attempt. -/
structure SnsWire where
  CreateTopic : List SnsCall → Nat → Except BackendError CreateTopicOutput
  Subscribe : List SnsCall → Nat → Except BackendError Unit
  Publish : List SnsCall → Nat → Except BackendError Unit
  ListSubscriptionsByTopic :
    List SnsCall → Nat → Except BackendError ListSubscriptionsByTopicOutput

/-- Modelled from the spec: the `sns.Client` of the controller, every operation
call run under the retryer. -/
def retryingSnsClient (r : Retryer) (wire : SnsWire) : SnsClient where
  CreateTopic := fun log => (withRetry r (wire.CreateTopic log)).1
  Subscribe := fun log => (withRetry r (wire.Subscribe log)).1
  Publish := fun log => (withRetry r (wire.Publish log)).1
  ListSubscriptionsByTopic := fun log => (withRetry r (wire.ListSubscriptionsByTopic log)).1

/-! ## Example backends -/

/-- A backend whose `k`-th `GetFunction` reply after `base` earlier calls is the
first one reporting `Active`; every `Invoke` succeeds. -/
def activeAtClient (base k : Nat) : LambdaClient where
  GetFunction := fun log =>
    .ok ⟨some ⟨if log.length = base + k then "Active" else "Pending"⟩⟩
  Invoke := fun _ => .ok ⟨200, "\x7b\x7d"⟩

/-- A backend on which the function never becomes active. -/
def neverActiveClient : LambdaClient where
  GetFunction := fun _ => .ok ⟨some ⟨"Pending"⟩⟩
  Invoke := fun _ => .ok ⟨200, "\x7b\x7d"⟩

/-- A backend whose `GetFunction` fails: the function does not exist. -/
def getFunctionFailsClient : LambdaClient where
  GetFunction := fun _ =>
    .error ⟨"ResourceNotFoundException", "ResourceNotFoundException: Function not found"⟩
  Invoke := fun _ => .ok ⟨200, "\x7b\x7d"⟩

/-- A backend on which the function is active at once and `Invoke` fails. -/
def invokeFailsClient : LambdaClient where
  GetFunction := fun _ => .ok ⟨some ⟨"Active"⟩⟩
  Invoke := fun _ => .error ⟨"ServiceException", "ServiceException: internal error"⟩

/-- A backend on which every step of `CreateAPI` succeeds except
`PutIntegration`. -/
def integrationFailsClient : ApiGatewayClient where
  CreateRestApi := fun _ => .ok ⟨some "api-1"⟩
  GetResources := fun _ => .ok ⟨[⟨some "root-1"⟩]⟩
  CreateResource := fun _ => .ok ⟨some "res-1"⟩
  PutMethod := fun _ => .ok ()
  PutIntegration := fun _ =>
    .error ⟨"BadRequestException", "BadRequestException: Invalid integration URI"⟩
  PutMethodResponse := fun _ => .ok ()
  PutIntegrationResponse := fun _ => .ok ()
  CreateDeployment := fun _ => .ok ⟨some "dep-1"⟩

/-- A backend on which every step of `CreateAPI` succeeds; the REST API gets the
id `api-1` and the deployment the id `dep-1`. -/
def allSucceedClient : ApiGatewayClient where
  CreateRestApi := fun _ => .ok ⟨some "api-1"⟩
  GetResources := fun _ => .ok ⟨[⟨some "root-1"⟩]⟩
  CreateResource := fun _ => .ok ⟨some "res-1"⟩
  PutMethod := fun _ => .ok ()
  PutIntegration := fun _ => .ok ()
  PutMethodResponse := fun _ => .ok ()
  PutIntegrationResponse := fun _ => .ok ()
  CreateDeployment := fun _ => .ok ⟨some "dep-1"⟩

/-- The request body used in the examples. -/
def demoAPIRequest : CreateAPIRequest :=
  { Name := "demo-api", Description := "demo" }

/-- A backend on which `CreateRestApi` and `GetResources` succeed and
`CreateResource` fails. -/
def resourceFailsClient : ApiGatewayClient where
  CreateRestApi := fun _ => .ok ⟨some "api-1"⟩
  GetResources := fun _ => .ok ⟨[⟨some "root-1"⟩]⟩
  CreateResource := fun _ =>
    .error ⟨"ConflictException", "ConflictException: Another resource with the same parent already has this name: test"⟩
  PutMethod := fun _ => .ok ()
  PutIntegration := fun _ => .ok ()
  PutMethodResponse := fun _ => .ok ()
  PutIntegrationResponse := fun _ => .ok ()
  CreateDeployment := fun _ => .ok ⟨some "dep-1"⟩

/-- A backend on which every call succeeds and `GetResources` returns an empty
item list. -/
def emptyItemsClient : ApiGatewayClient where
  CreateRestApi := fun _ => .ok ⟨some "api-1"⟩
  GetResources := fun _ => .ok ⟨[]⟩
  CreateResource := fun _ => .ok ⟨some "res-1"⟩
  PutMethod := fun _ => .ok ()
  PutIntegration := fun _ => .ok ()
  PutMethodResponse := fun _ => .ok ()
  PutIntegrationResponse := fun _ => .ok ()
  CreateDeployment := fun _ => .ok ⟨some "dep-1"⟩

/-- The error the S3 backend returns when the caller already owns the bucket,
as the SDK renders it: error code `BucketAlreadyOwnedByYou` inside the
operation error text. -/
def bucketOwnedError : BackendError :=
  { code := "BucketAlreadyOwnedByYou"
    text := "operation error S3: CreateBucket, https response error StatusCode: 409, RequestID: 7a62c49f347a, HostID: 9Gjjt1m, BucketAlreadyOwnedByYou: Your previous request to create the named bucket succeeded and you already own it." }

/-- A backend on which `demo-bucket` already exists and is owned by the caller. -/
def bucketOwnedClient : S3Client where
  CreateBucket := fun _ => .error bucketOwnedError
  PutObject := fun _ => .ok ()

/-- A backend on which every S3 operation succeeds. -/
def s3OkClient : S3Client where
  CreateBucket := fun _ => .ok ()
  PutObject := fun _ => .ok ()

/-- The uploaded file used in the examples. -/
def demoFile : FileHeader :=
  { Filename := "a.txt", content := some "hello" }

/-- The topic ARN used in the examples. -/
def demoTopicArn : String := "arn:aws:sns:sa-east-1:000000000000:demo-topic"

/-- A backend on which `CreateTopic` succeeds and only the first `Subscribe`
(the second call on a fresh log) fails. -/
def firstSubscribeFailsClient : SnsClient where
  CreateTopic := fun _ => .ok ⟨some demoTopicArn⟩
  Subscribe := fun log =>
    if log.length ≤ 2 then
      .error ⟨"InternalError", "InternalError: service unavailable"⟩
    else
      .ok ()
  Publish := fun _ => .ok ()
  ListSubscriptionsByTopic := fun _ => .ok ⟨[]⟩

/-- The publish request used in the examples. -/
def demoPublish : PublishMessageRequest :=
  { Message := "hello", Subject := "greeting" }

/-- The subscribe request used in the examples. -/
def demoSubscribe : SubscribeRequest :=
  { Protocol := "sqs", Endpoint := "arn:aws:sqs:sa-east-1:000000000000:demo-queue" }

/-- The queue URL used in the examples. -/
def demoQueueUrl : String := "http://localhost:4566/000000000000/demo-queue"

/-- A backend on which every SQS operation succeeds and the queue is empty. -/
def sqsOkClient : SqsClient where
  CreateQueue := fun _ => .ok ⟨some demoQueueUrl⟩
  SendMessage := fun _ => .ok ()
  ReceiveMessage := fun _ => .ok ⟨[]⟩
  DeleteMessage := fun _ => .ok ()

/-- A backend on which the table `users` exists and every DynamoDB operation
succeeds. -/
def tableExistsClient : DynamoClient where
  DescribeTable := fun _ => .ok ()
  CreateTable := fun _ => .ok ()
  WaitTableExists := fun _ => .ok ()
  PutItem := fun _ => .ok ()
  GetItem := fun _ => .ok ⟨none⟩
  UpdateItem := fun _ => .ok ()
  DeleteItem := fun _ => .ok ()
  Scan := fun _ => .ok ⟨[]⟩

/-- The error of a caller that lacks permission for the operation. -/
def accessDeniedError : BackendError :=
  { code := "AccessDeniedException"
    text := "operation error DynamoDB: DescribeTable, https response error StatusCode: 400, RequestID: 4f1d2c0b9a3e, api error AccessDeniedException: User is not authorized to perform: dynamodb:DescribeTable" }

/-- A backend that denies `DescribeTable` and `CreateTable` to the caller. -/
def accessDeniedClient : DynamoClient where
  DescribeTable := fun _ => .error accessDeniedError
  CreateTable := fun _ => .error accessDeniedError
  WaitTableExists := fun _ => .ok ()
  PutItem := fun _ => .ok ()
  GetItem := fun _ => .ok ⟨none⟩
  UpdateItem := fun _ => .ok ()
  DeleteItem := fun _ => .ok ()
  Scan := fun _ => .ok ⟨[]⟩

/-- A backend on which the table `users` is absent until `CreateTable` is
issued: `DescribeTable` fails with `ResourceNotFoundException`. -/
def tableAbsentClient : DynamoClient where
  DescribeTable := fun _ =>
    .error ⟨"ResourceNotFoundException",
      "ResourceNotFoundException: Cannot do operations on a non-existent table"⟩
  CreateTable := fun _ => .ok ()
  WaitTableExists := fun _ => .ok ()
  PutItem := fun _ => .ok ()
  GetItem := fun _ => .ok ⟨none⟩
  UpdateItem := fun _ => .ok ()
  DeleteItem := fun _ => .ok ()
  Scan := fun _ => .ok ⟨[]⟩

/-- The error of a backend that is temporarily unavailable. -/
def unavailableError : BackendError :=
  { code := "ServiceUnavailable"
    text := "https response error StatusCode: 503, RequestID: 0c9d1f6e2b7a, api error ServiceUnavailable: The service is temporarily unavailable" }

/-- A retryer with three attempts per call that retries unavailable and
throttled replies. -/
def threeAttempts : Retryer where
  maxAttempts := 3
  isTransient := fun e =>
    e.code = "ServiceUnavailable" || e.code = "ThrottlingException" ||
      e.code = "RequestThrottled"

/-- An SQS backend whose reply to the first attempt of every `CreateQueue` call
is a 503 and whose later attempts succeed. -/
def flakySqsWire : SqsWire where
  CreateQueue := fun _ n =>
    if n = 0 then
      .error unavailableError
    else
      .ok ⟨some demoQueueUrl⟩
  SendMessage := fun _ _ => .ok ()
  ReceiveMessage := fun _ _ => .ok ⟨[]⟩
  DeleteMessage := fun _ _ => .ok ()

/-- A backend on which every SNS operation succeeds. -/
def snsOkClient : SnsClient where
  CreateTopic := fun _ => .ok ⟨some demoTopicArn⟩
  Subscribe := fun _ => .ok ()
  Publish := fun _ => .ok ()
  ListSubscriptionsByTopic := fun _ => .ok ⟨[]⟩

/-- A backend on which `CreateBucket` fails with an error whose whole text is
the string `BucketAlreadyOwnedByYou`. -/
def bareCodeClient : S3Client where
  CreateBucket := fun _ => .error ⟨"BucketAlreadyOwnedByYou", "BucketAlreadyOwnedByYou"⟩
  PutObject := fun _ => .ok ()

/-- The error SQS returns for a queue name that was deleted less than 60 seconds
ago. -/
def deletedRecentlyError : BackendError :=
  { code := "AWS.SimpleQueueService.QueueDeletedRecently"
    text := "operation error SQS: CreateQueue, https response error StatusCode: 400, RequestID: 5d2a8e1b7c40, api error AWS.SimpleQueueService.QueueDeletedRecently: You must wait 60 seconds after deleting a queue before you can create another with the same name." }

/-- A backend on which the first `CreateQueue` call is refused because the queue
was deleted recently and later `CreateQueue` calls succeed. -/
def deletedRecentlyClient : SqsClient where
  CreateQueue := fun log =>
    if countCreateQueue log ≤ 1 then
      .error deletedRecentlyError
    else
      .ok ⟨some demoQueueUrl⟩
  SendMessage := fun _ => .ok ()
  ReceiveMessage := fun _ => .ok ⟨[]⟩
  DeleteMessage := fun _ => .ok ()

/-! # Theorems -/

theorem newCalls_append {α : Type} (log calls : List α) :
    newCalls log (log ++ calls) = calls := by
  simp [newCalls]

/-! ## The polling loop of `InvokeFunction` -/

/-- The loop only appends `GetFunction` calls, at most one per iteration. -/
theorem pollLoop_log (client : LambdaClient) (functionName : String) (n : Nat) :
    ∀ (st : String) (log : List LambdaCall), ∃ m, m ≤ n ∧
      (pollLoop client functionName n st log).2 =
        log ++ List.replicate m (LambdaCall.GetFunction functionName) := by
  induction n with
  | zero => intro st log; exact ⟨0, le_refl _, by simp [pollLoop]⟩
  | succ n ih =>
    intro st log
    simp only [pollLoop]
    cases hreply : client.GetFunction (log ++ [LambdaCall.GetFunction functionName]) with
    | error err => exact ⟨1, by omega, by simp⟩
    | ok out =>
      cases hcfg : out.Configuration with
      | none => exact ⟨1, by omega, by simp [hcfg]⟩
      | some cfg =>
        by_cases hact : cfg.State = StateActive
        · exact ⟨1, by omega, by simp [hcfg, hact]⟩
        · obtain ⟨m, hm, hlog⟩ := ih cfg.State (log ++ [LambdaCall.GetFunction functionName])
          refine ⟨m + 1, by omega, ?_⟩
          simp only [hcfg, hact, if_false]
          rw [hlog, List.replicate_succ, List.append_assoc]
          rfl

/-- If the `k`-th reply is the first that reports `Active` and the loop has at
least `k` iterations to go, it is left by `break` after exactly `k` calls. -/
theorem pollLoop_active (client : LambdaClient) (functionName : String) (n : Nat) :
    ∀ (k : Nat) (st : String) (log : List LambdaCall), 1 ≤ k → k ≤ n →
      (∀ j, j + 1 < k → ∃ cfg,
        client.GetFunction (log ++ List.replicate (j + 1) (LambdaCall.GetFunction functionName))
          = .ok ⟨some cfg⟩ ∧ cfg.State ≠ StateActive) →
      (∃ cfg,
        client.GetFunction (log ++ List.replicate k (LambdaCall.GetFunction functionName))
          = .ok ⟨some cfg⟩ ∧ cfg.State = StateActive) →
      pollLoop client functionName n st log =
        (.finished StateActive,
          log ++ List.replicate k (LambdaCall.GetFunction functionName)) := by
  induction n with
  | zero => intro k st log h1 h0; omega
  | succ n ih =>
    intro k st log h1 hk hbefore hat
    simp only [pollLoop]
    by_cases hk1 : k = 1
    · subst hk1
      obtain ⟨cfg, hreply, hact⟩ := hat
      simp only [List.replicate_one] at hreply
      simp [hreply, hact]
    · obtain ⟨cfg, hreply, hact⟩ := hbefore 0 (by omega)
      simp only [zero_add, List.replicate_one] at hreply
      simp only [hreply, hact, if_false]
      have hk2 : k = (k - 1) + 1 := by omega
      have hstep := ih (k - 1) cfg.State (log ++ [LambdaCall.GetFunction functionName])
        (by omega) (by omega)
        (by
          intro j hj
          obtain ⟨c, hc, hs⟩ := hbefore (j + 1) (by omega)
          refine ⟨c, ?_, hs⟩
          rw [List.replicate_succ] at hc
          simpa [List.append_assoc] using hc)
        (by
          obtain ⟨c, hc, hs⟩ := hat
          refine ⟨c, ?_, hs⟩
          rw [hk2, List.replicate_succ] at hc
          simpa [List.append_assoc] using hc)
      rw [hstep]
      conv_rhs => rw [hk2, List.replicate_succ]
      simp [List.append_assoc]

/-- If none of the next `n` replies reports `Active` (and none fails), the loop
runs all `n` iterations and ends with a state other than `Active`. -/
theorem pollLoop_never (client : LambdaClient) (functionName : String) (n : Nat) :
    ∀ (st : String) (log : List LambdaCall), st ≠ StateActive →
      (∀ j, j < n → ∃ cfg,
        client.GetFunction (log ++ List.replicate (j + 1) (LambdaCall.GetFunction functionName))
          = .ok ⟨some cfg⟩ ∧ cfg.State ≠ StateActive) →
      ∃ st', st' ≠ StateActive ∧
        pollLoop client functionName n st log =
          (.finished st', log ++ List.replicate n (LambdaCall.GetFunction functionName)) := by
  induction n with
  | zero => intro st log hst _; exact ⟨st, hst, by simp [pollLoop]⟩
  | succ n ih =>
    intro st log hst hall
    simp only [pollLoop]
    obtain ⟨cfg, hreply, hact⟩ := hall 0 (by omega)
    simp only [zero_add, List.replicate_one] at hreply
    simp only [hreply, hact, if_false]
    obtain ⟨st', hst', hrun⟩ := ih cfg.State (log ++ [LambdaCall.GetFunction functionName]) hact
      (by
        intro j hj
        obtain ⟨c, hc, hs⟩ := hall (j + 1) (by omega)
        refine ⟨c, ?_, hs⟩
        rw [List.replicate_succ] at hc
        simpa [List.append_assoc] using hc)
    refine ⟨st', hst', ?_⟩
    rw [hrun, List.replicate_succ]
    simp [List.append_assoc]

theorem countGetFunction_replicate (functionName : String) (m : Nat) :
    countGetFunction (List.replicate m (LambdaCall.GetFunction functionName)) = m := by
  induction m with
  | zero => rfl
  | succ m ih =>
    simp only [countGetFunction, List.replicate_succ, List.filter_cons] at ih ⊢
    simp [ih]

theorem countGetFunction_append (xs ys : List LambdaCall) :
    countGetFunction (xs ++ ys) = countGetFunction xs + countGetFunction ys := by
  simp [countGetFunction, List.filter_append]

theorem countInvoke_append (xs ys : List LambdaCall) :
    countInvoke (xs ++ ys) = countInvoke xs + countInvoke ys := by
  simp [countInvoke, List.filter_append]

theorem countInvoke_replicate (functionName : String) (m : Nat) :
    countInvoke (List.replicate m (LambdaCall.GetFunction functionName)) = 0 := by
  induction m with
  | zero => rfl
  | succ m ih =>
    simp only [countInvoke, List.replicate_succ, List.filter_cons] at ih ⊢
    exact ih

/-- C1: in `InvokeFunction`, when no `GetFunction` reply fails, each reply
carries a configuration and the first reply reporting state `Active` is the
`k`-th (`1 ≤ k ≤ 5`), the request issues exactly `k` `GetFunction` calls followed
by exactly one `Invoke`; and whatever the backend does, one request issues at
most 5 `GetFunction` calls. -/
theorem invokeFunction_polls_until_active :
    (∀ (client : LambdaClient) (functionName : String) (log : List LambdaCall) (k : Nat),
      functionName ≠ "" → 1 ≤ k → k ≤ 5 →
      (∀ j, j + 1 < k → ∃ cfg,
        client.GetFunction (log ++ List.replicate (j + 1) (LambdaCall.GetFunction functionName))
          = .ok ⟨some cfg⟩ ∧ cfg.State ≠ StateActive) →
      (∃ cfg,
        client.GetFunction (log ++ List.replicate k (LambdaCall.GetFunction functionName))
          = .ok ⟨some cfg⟩ ∧ cfg.State = StateActive) →
      newCalls log (InvokeFunction client functionName log).2 =
          List.replicate k (LambdaCall.GetFunction functionName) ++
            [LambdaCall.Invoke functionName invokePayload] ∧
        countGetFunction (newCalls log (InvokeFunction client functionName log).2) = k ∧
        countInvoke (newCalls log (InvokeFunction client functionName log).2) = 1) ∧
    (∀ (client : LambdaClient) (functionName : String) (log : List LambdaCall),
      ∃ calls, (InvokeFunction client functionName log).2 = log ++ calls ∧
        countGetFunction calls ≤ 5) := by
  constructor
  · intro client functionName log k hname h1 h5 hbefore hat
    have hloop := pollLoop_active client functionName 5 k "" log h1 h5 hbefore hat
    have hlog : (InvokeFunction client functionName log).2 =
        log ++ (List.replicate k (LambdaCall.GetFunction functionName) ++
          [LambdaCall.Invoke functionName invokePayload]) := by
      unfold InvokeFunction
      rw [if_neg hname, hloop]
      simp only [ne_eq, not_true_eq_false, if_false]
      split <;> simp
    rw [hlog, newCalls_append]
    refine ⟨rfl, ?_, ?_⟩
    · rw [countGetFunction_append, countGetFunction_replicate]; rfl
    · rw [countInvoke_append, countInvoke_replicate]; rfl
  · intro client functionName log
    by_cases hname : functionName = ""
    · exact ⟨[], by simp [InvokeFunction, hname], by simp [countGetFunction]⟩
    · obtain ⟨m, hm, hlog⟩ := pollLoop_log client functionName 5 "" log
      unfold InvokeFunction
      rw [if_neg hname]
      cases hrun : pollLoop client functionName 5 "" log with
      | mk exit log1 =>
        rw [hrun] at hlog
        simp only at hlog
        subst hlog
        cases exit with
        | returned o =>
          exact ⟨_, rfl, by rw [countGetFunction_replicate]; exact hm⟩
        | finished st =>
          by_cases hst : st = StateActive
          · simp only [hst, ne_eq, not_true_eq_false, if_false]
            refine ⟨List.replicate m (LambdaCall.GetFunction functionName) ++
              [LambdaCall.Invoke functionName invokePayload], ?_, ?_⟩
            · split <;> simp
            · rw [countGetFunction_append, countGetFunction_replicate]
              simpa [countGetFunction] using hm
          · simp only [ne_eq, hst, not_false_eq_true, if_true]
            exact ⟨_, rfl, by rw [countGetFunction_replicate]; exact hm⟩

/-- Witness for C1: the function becomes active on the 3rd of the 5 attempts. -/
theorem invokeFunction_polls_until_active_witness :
    newCalls [] (InvokeFunction (activeAtClient 0 3) "minha-funcao" []).2 =
        [LambdaCall.GetFunction "minha-funcao", LambdaCall.GetFunction "minha-funcao",
          LambdaCall.GetFunction "minha-funcao",
          LambdaCall.Invoke "minha-funcao" invokePayload] ∧
      countGetFunction (newCalls [] (InvokeFunction (activeAtClient 0 3) "minha-funcao" []).2)
        = 3 ∧
      countInvoke (newCalls [] (InvokeFunction (activeAtClient 0 3) "minha-funcao" []).2)
        = 1 :=
  invokeFunction_polls_until_active.1 (activeAtClient 0 3) "minha-funcao" [] 3
    (by decide) (by decide) (by decide)
    (by
      intro j hj
      refine ⟨⟨"Pending"⟩, ?_, by decide⟩
      simp [activeAtClient]
      omega)
    ⟨⟨"Active"⟩, by simp [activeAtClient], rfl⟩

/-- C2: in `InvokeFunction`, if none of the 5 `GetFunction` replies fails and none
reports state `Active`, the request ends with status 500 and the message
"Função ainda não está ativa" after 5 `GetFunction` calls, and `Invoke` is not
called. -/
theorem invokeFunction_timeout (client : LambdaClient) (functionName : String)
    (log : List LambdaCall) (hname : functionName ≠ "")
    (hnever : ∀ j, j < 5 → ∃ cfg,
      client.GetFunction (log ++ List.replicate (j + 1) (LambdaCall.GetFunction functionName))
        = .ok ⟨some cfg⟩ ∧ cfg.State ≠ StateActive) :
    (InvokeFunction client functionName log).1 =
        errorResponse 500 "Função ainda não está ativa" ∧
      newCalls log (InvokeFunction client functionName log).2 =
        List.replicate 5 (LambdaCall.GetFunction functionName) ∧
      countInvoke (newCalls log (InvokeFunction client functionName log).2) = 0 := by
  obtain ⟨st, hst, hrun⟩ := pollLoop_never client functionName 5 "" log (by decide) hnever
  have hall : InvokeFunction client functionName log =
      (errorResponse 500 "Função ainda não está ativa",
        log ++ List.replicate 5 (LambdaCall.GetFunction functionName)) := by
    unfold InvokeFunction
    rw [if_neg hname, hrun]
    simp [hst]
  rw [hall, newCalls_append]
  exact ⟨rfl, rfl, countInvoke_replicate functionName 5⟩

/-- Witness for C2: a function that stays `Pending`. -/
theorem invokeFunction_timeout_witness :
    (InvokeFunction neverActiveClient "minha-funcao" []).1 =
        errorResponse 500 "Função ainda não está ativa" ∧
      newCalls [] (InvokeFunction neverActiveClient "minha-funcao" []).2 =
        List.replicate 5 (LambdaCall.GetFunction "minha-funcao") ∧
      countInvoke (newCalls [] (InvokeFunction neverActiveClient "minha-funcao" []).2) = 0 :=
  invokeFunction_timeout neverActiveClient "minha-funcao" [] (by decide)
    (fun _ _ => ⟨⟨"Pending"⟩, rfl, by decide⟩)

/-! ## The eight steps of `CreateAPI` -/

theorem replyError_eq_none {α : Type} (r : Except BackendError α) :
    replyError r = none ↔ ∃ a, r = .ok a := by
  cases r <;> simp [replyError]

theorem replyError_eq_some {α : Type} (r : Except BackendError α) (e : BackendError) :
    replyError r = some e ↔ r = .error e := by
  cases r <;> simp [replyError]

/-- When steps `1..k-1` succeed and step `k` fails with `e`, `CreateAPI` stops
after the first `k` steps and reports the error of step `k`. -/
theorem createAPI_abort (client : ApiGatewayClient)
    (req : CreateAPIRequest) (log : List ApiCall) (k : Nat)
    (apiId rootId resourceId : Option String) (e : BackendError)
    (hk1 : 1 ≤ k) (hk8 : k ≤ 8)
    (hapi : 1 < k → client.CreateRestApi
      (log ++ (createAPISteps req apiId rootId resourceId).take 1) = .ok ⟨apiId⟩)
    (hroot : 2 < k → ∃ rest, client.GetResources
      (log ++ (createAPISteps req apiId rootId resourceId).take 2) = .ok ⟨⟨rootId⟩ :: rest⟩)
    (hres : 3 < k → client.CreateResource
      (log ++ (createAPISteps req apiId rootId resourceId).take 3) = .ok ⟨resourceId⟩)
    (hok : ∀ j call, j + 1 < k → (createAPISteps req apiId rootId resourceId)[j]? = some call →
      client.failure (log ++ (createAPISteps req apiId rootId resourceId).take j) call = none)
    (hfail : ∃ call, (createAPISteps req apiId rootId resourceId)[k - 1]? = some call ∧
      client.failure (log ++ (createAPISteps req apiId rootId resourceId).take (k - 1)) call
        = some e) :
    CreateAPI client (some req) log =
      (errorResponse 500 (createAPIErrorPrefix k ++ e.text),
        log ++ (createAPISteps req apiId rootId resourceId).take k) := by
  have h0 := hok 0
  have h1 := hok 1
  have h2 := hok 2
  have h3 := hok 3
  have h4 := hok 4
  have h5 := hok 5
  have h6 := hok 6
  clear hok
  interval_cases k <;>
    simp [createAPISteps, ApiGatewayClient.failure, replyError_eq_none, replyError_eq_some,
      createAPIErrorPrefix] at h0 h1 h2 h3 h4 h5 h6 hfail hapi hroot hres ⊢
  all_goals (try obtain ⟨rest, hroot⟩ := hroot)
  all_goals (try obtain ⟨u3, h3⟩ := h3)
  all_goals (try obtain ⟨u4, h4⟩ := h4)
  all_goals (try obtain ⟨u5, h5⟩ := h5)
  all_goals (try obtain ⟨u6, h6⟩ := h6)
  all_goals simp [CreateAPI, *]

/-- When all eight steps succeed, `CreateAPI` issues exactly the eight steps and
answers from the id returned by `CreateRestApi`. -/
theorem createAPI_all_succeed (client : ApiGatewayClient)
    (req : CreateAPIRequest) (log : List ApiCall)
    (apiId rootId resourceId : Option String)
    (hapi : client.CreateRestApi
      (log ++ (createAPISteps req apiId rootId resourceId).take 1) = .ok ⟨apiId⟩)
    (hroot : ∃ rest, client.GetResources
      (log ++ (createAPISteps req apiId rootId resourceId).take 2) = .ok ⟨⟨rootId⟩ :: rest⟩)
    (hres : client.CreateResource
      (log ++ (createAPISteps req apiId rootId resourceId).take 3) = .ok ⟨resourceId⟩)
    (hok : ∀ j call, (createAPISteps req apiId rootId resourceId)[j]? = some call →
      client.failure (log ++ (createAPISteps req apiId rootId resourceId).take j) call = none) :
    CreateAPI client (some req) log =
      (match apiId with
        | none => Outcome.panicked
        | some id =>
          .replied ⟨200, .object [("message", .str "API criada com sucesso"),
            ("api_id", .str id),
            ("url", .str ("http://localhost:4566/restapis/" ++ id ++ "/test/stages/test"))]⟩,
        log ++ createAPISteps req apiId rootId resourceId) := by
  have h3 := hok 3
  have h4 := hok 4
  have h5 := hok 5
  have h6 := hok 6
  have h7 := hok 7
  clear hok
  simp [createAPISteps, ApiGatewayClient.failure, replyError_eq_none]
    at h3 h4 h5 h6 h7 hapi hroot hres ⊢
  obtain ⟨rest, hroot⟩ := hroot
  obtain ⟨u3, h3⟩ := h3
  obtain ⟨u4, h4⟩ := h4
  obtain ⟨u5, h5⟩ := h5
  obtain ⟨u6, h6⟩ := h6
  obtain ⟨u7, h7⟩ := h7
  cases apiId <;> simp [CreateAPI, *]

/-- C3: the eight backend steps of `CreateAPI` run in the fixed order
CreateRestApi, GetResources, CreateResource, PutMethod, PutIntegration,
PutMethodResponse, PutIntegrationResponse, CreateDeployment.  For every `k` in
`1..8`, if steps `1..k-1` succeed and step `k` fails, the calls issued are exactly
steps `1..k` in that order (no later step, no undo call) and the response is a
500 error without `api_id` or `url`; if all eight succeed, the calls issued are
exactly the eight steps in that order.  A successful `GetResources` is one whose
reply lists the root resource as its first item. -/
theorem createAPI_stops_at_failing_step :
    (∀ (client : ApiGatewayClient) (req : CreateAPIRequest) (log : List ApiCall) (k : Nat)
      (apiId rootId resourceId : Option String) (e : BackendError),
      1 ≤ k → k ≤ 8 →
      (1 < k → client.CreateRestApi
        (log ++ (createAPISteps req apiId rootId resourceId).take 1) = .ok ⟨apiId⟩) →
      (2 < k → ∃ rest, client.GetResources
        (log ++ (createAPISteps req apiId rootId resourceId).take 2)
          = .ok ⟨⟨rootId⟩ :: rest⟩) →
      (3 < k → client.CreateResource
        (log ++ (createAPISteps req apiId rootId resourceId).take 3) = .ok ⟨resourceId⟩) →
      (∀ j call, j + 1 < k → (createAPISteps req apiId rootId resourceId)[j]? = some call →
        client.failure (log ++ (createAPISteps req apiId rootId resourceId).take j) call
          = none) →
      (∃ call, (createAPISteps req apiId rootId resourceId)[k - 1]? = some call ∧
        client.failure (log ++ (createAPISteps req apiId rootId resourceId).take (k - 1)) call
          = some e) →
      newCalls log (CreateAPI client (some req) log).2 =
          (createAPISteps req apiId rootId resourceId).take k ∧
        ∃ r, (CreateAPI client (some req) log).1 = .replied r ∧ r.status = 500 ∧
          r.field "error" = some (.str (createAPIErrorPrefix k ++ e.text)) ∧
          r.field "api_id" = none ∧ r.field "url" = none) ∧
    (∀ (client : ApiGatewayClient) (req : CreateAPIRequest) (log : List ApiCall)
      (apiId rootId resourceId : Option String),
      client.CreateRestApi
        (log ++ (createAPISteps req apiId rootId resourceId).take 1) = .ok ⟨apiId⟩ →
      (∃ rest, client.GetResources
        (log ++ (createAPISteps req apiId rootId resourceId).take 2)
          = .ok ⟨⟨rootId⟩ :: rest⟩) →
      client.CreateResource
        (log ++ (createAPISteps req apiId rootId resourceId).take 3) = .ok ⟨resourceId⟩ →
      (∀ j call, (createAPISteps req apiId rootId resourceId)[j]? = some call →
        client.failure (log ++ (createAPISteps req apiId rootId resourceId).take j) call
          = none) →
      newCalls log (CreateAPI client (some req) log).2 =
        createAPISteps req apiId rootId resourceId) := by
  constructor
  · intro client req log k apiId rootId resourceId e hk1 hk8 hapi hroot hres hok hfail
    rw [createAPI_abort client req log k apiId rootId resourceId e hk1 hk8 hapi hroot hres
      hok hfail, newCalls_append]
    exact ⟨rfl, _, rfl, rfl, rfl, rfl, rfl⟩
  · intro client req log apiId rootId resourceId hapi hroot hres hok
    rw [createAPI_all_succeed client req log apiId rootId resourceId hapi hroot hres hok,
      newCalls_append]

/-- Witness for C3: `PutIntegration`, the 5th step, fails. -/
theorem createAPI_stops_at_failing_step_witness :
    newCalls [] (CreateAPI integrationFailsClient (some demoAPIRequest) []).2 =
        [ApiCall.CreateRestApi "demo-api" "demo",
         ApiCall.GetResources (some "api-1"),
         ApiCall.CreateResource (some "api-1") (some "root-1") "test",
         ApiCall.PutMethod (some "api-1") (some "res-1") "GET" "NONE",
         ApiCall.PutIntegration (some "api-1") (some "res-1") "GET" "AWS_PROXY" "POST"
           integrationUri] ∧
      ∃ r, (CreateAPI integrationFailsClient (some demoAPIRequest) []).1 = .replied r ∧
        r.status = 500 ∧
        r.field "error" = some (.str ("Erro ao configurar integração: " ++
          "BadRequestException: Invalid integration URI")) ∧
        r.field "api_id" = none ∧ r.field "url" = none :=
  createAPI_stops_at_failing_step.1 integrationFailsClient demoAPIRequest [] 5
    (some "api-1") (some "root-1") (some "res-1")
    ⟨"BadRequestException", "BadRequestException: Invalid integration URI"⟩
    (by decide) (by decide) (fun _ => rfl) (fun _ => ⟨[], rfl⟩) (fun _ => rfl)
    (fun j call hj hcall => by
      have hj4 : j < 4 := by omega
      interval_cases j <;> simp [createAPISteps] at hcall <;> subst hcall <;> rfl)
    ⟨_, rfl, rfl⟩

/-! ## `setupBucket` and the bucket-already-owned error -/

/-- C4 (the code at the failing input): `CreateBucket` fails with the error code
`BucketAlreadyOwnedByYou`, carried in the SDK's operation error text.
`isBucketAlreadyExistsError` compares the whole text with the bare code, so it
answers `false`, `setupBucket` returns an error and `UploadFile` is aborted with
status 500 before any `PutObject`. -/
theorem setupBucket_owned_bucket_is_fatal :
    bucketOwnedError.code = "BucketAlreadyOwnedByYou" ∧
    bucketOwnedClient.CreateBucket [S3Call.CreateBucket "demo-bucket" "sa-east-1"] =
      .error bucketOwnedError ∧
    isBucketAlreadyExistsError (some bucketOwnedError) = false ∧
    setupBucket bucketOwnedClient [] =
      (.err ("erro ao criar bucket S3: " ++ bucketOwnedError.text),
        [S3Call.CreateBucket "demo-bucket" "sa-east-1"]) ∧
    UploadFile bucketOwnedClient (some demoFile) [] =
      (errorResponse 500 ("erro ao criar bucket S3: " ++ bucketOwnedError.text),
        [S3Call.CreateBucket "demo-bucket" "sa-east-1"]) := by
  have hno : isBucketAlreadyExistsError (some bucketOwnedError) = false := by
    simp [isBucketAlreadyExistsError, bucketOwnedError]
  refine ⟨rfl, rfl, hno, ?_, ?_⟩
  · simp [setupBucket, bucketOwnedClient, hno]
  · simp [UploadFile, setupBucket, bucketOwnedClient, hno]

/-! ## `setupTopic` after a failed default subscription -/

/-- C5 (the code at the failing input): on a fresh controller the first request
runs `setupTopic`, whose `CreateTopic` succeeds and whose default `Subscribe`
fails; the request is answered with the setup error, but `topicARN` has already
been stored.  The next request, whichever handler serves it, skips `setupTopic`:
it issues no `CreateTopic` and no default `Subscribe`. -/
theorem sns_failed_subscription_is_not_retried :
    snsRoute firstSubscribeFailsClient NewSNSController (.publish (some demoPublish)) [] =
      (errorResponse 500
          ("erro ao criar inscrição padrão: " ++ "InternalError: service unavailable"),
        { topicARN := demoTopicArn, topicName := "demo-topic" },
        [SnsCall.CreateTopic "demo-topic",
         SnsCall.Subscribe demoTopicArn "email" "test@example.com"]) ∧
    newCalls
        [SnsCall.CreateTopic "demo-topic",
         SnsCall.Subscribe demoTopicArn "email" "test@example.com"]
        (snsRoute firstSubscribeFailsClient
          { topicARN := demoTopicArn, topicName := "demo-topic" }
          (.publish (some demoPublish))
          [SnsCall.CreateTopic "demo-topic",
           SnsCall.Subscribe demoTopicArn "email" "test@example.com"]).2.2 =
      [SnsCall.Publish demoTopicArn "hello" "greeting"] ∧
    newCalls
        [SnsCall.CreateTopic "demo-topic",
         SnsCall.Subscribe demoTopicArn "email" "test@example.com"]
        (snsRoute firstSubscribeFailsClient
          { topicARN := demoTopicArn, topicName := "demo-topic" }
          (.subscribe (some demoSubscribe))
          [SnsCall.CreateTopic "demo-topic",
           SnsCall.Subscribe demoTopicArn "email" "test@example.com"]).2.2 =
      [SnsCall.Subscribe demoTopicArn "sqs" "arn:aws:sqs:sa-east-1:000000000000:demo-queue"] ∧
    newCalls
        [SnsCall.CreateTopic "demo-topic",
         SnsCall.Subscribe demoTopicArn "email" "test@example.com"]
        (snsRoute firstSubscribeFailsClient
          { topicARN := demoTopicArn, topicName := "demo-topic" }
          .subscriptions
          [SnsCall.CreateTopic "demo-topic",
           SnsCall.Subscribe demoTopicArn "email" "test@example.com"]).2.2 =
      [SnsCall.ListSubscriptionsByTopic demoTopicArn] := by
  refine ⟨?_, ?_, ?_, ?_⟩
  · simp [snsRoute, PublishMessage, topicGuard, setupTopic, NewSNSController,
      firstSubscribeFailsClient]
  · simp [snsRoute, PublishMessage, topicGuard, firstSubscribeFailsClient, newCalls,
      demoTopicArn, demoPublish]
  · simp [snsRoute, Subscribe, topicGuard, firstSubscribeFailsClient, newCalls,
      demoTopicArn, demoSubscribe]
  · simp [snsRoute, ListSubscriptions, topicGuard, firstSubscribeFailsClient, newCalls,
      demoTopicArn, collectAll]

/-! ## The queue guard of `SQSController` -/

/-- With a stored queue URL the guard does nothing. -/
theorem queueGuard_ready (client : SqsClient) (s : SQSController) (log : List SqsCall)
    (h : s.queueURL ≠ "") : queueGuard client s log = (.nil, s, log) := by
  simp [queueGuard, h]

/-- With an empty queue URL and a successful `CreateQueue` the guard stores the
returned URL. -/
theorem queueGuard_first (client : SqsClient) (s : SQSController) (log : List SqsCall)
    (u : String) (hempty : s.queueURL = "")
    (hcreate : client.CreateQueue (log ++ [.CreateQueue s.queueName]) = .ok ⟨some u⟩) :
    queueGuard client s log =
      (.nil, { s with queueURL := u }, log ++ [.CreateQueue s.queueName]) := by
  simp [queueGuard, hempty, setupQueue, hcreate]

/-- After the guard no handler changes the controller fields. -/
theorem sqsRoute_fields (client : SqsClient) (s : SQSController) (req : SqsRequest)
    (log : List SqsCall) :
    (sqsRoute client s req log).2.1 = (queueGuard client s log).2.1 := by
  cases req with
  | send body =>
    simp only [sqsRoute, SendMessage]
    split
    · simp_all
    · simp_all
    · rename_i hg
      rw [hg]
      cases body with
      | none => rfl
      | some m => simp only []; split <;> rfl
  | receive =>
    simp only [sqsRoute, ReceiveMessage]
    split
    · simp_all
    · simp_all
    · rename_i hg
      rw [hg]
      simp only []
      split
      · rfl
      · split
        · rfl
        · split
          · rfl
          · split <;> rfl

/-- With a stored queue URL a request issues only queue operations on that URL. -/
theorem sqsRoute_ready (client : SqsClient) (s : SQSController) (req : SqsRequest)
    (log : List SqsCall) (h : s.queueURL ≠ "") :
    ∃ calls, (sqsRoute client s req log).2.2 = log ++ calls ∧
      countCreateQueue calls = 0 ∧
      (∀ c ∈ calls, c.queueUrlOf = some s.queueURL) ∧
      (∀ m, req = .send (some m) → calls = [.SendMessage s.queueURL m.Message]) ∧
      (req = .receive → calls.head? = some (.ReceiveMessage s.queueURL 1 20)) := by
  cases req with
  | send body =>
    cases body with
    | none =>
      exact ⟨[], by simp [sqsRoute, SendMessage, queueGuard_ready client s log h],
        rfl, by simp, by simp, by simp⟩
    | some m =>
      refine ⟨[.SendMessage s.queueURL m.Message], ?_, rfl, ?_, ?_, by simp⟩
      · simp only [sqsRoute, SendMessage, queueGuard_ready client s log h]
        split <;> rfl
      · simp [SqsCall.queueUrlOf]
      · intro m' hm'
        cases hm'
        rfl
  | receive =>
    simp only [sqsRoute, ReceiveMessage, queueGuard_ready client s log h]
    split
    · exact ⟨[.ReceiveMessage s.queueURL 1 20], rfl, rfl, by simp [SqsCall.queueUrlOf],
        by simp, by simp⟩
    · split
      · exact ⟨[.ReceiveMessage s.queueURL 1 20], rfl, rfl, by simp [SqsCall.queueUrlOf],
          by simp, by simp⟩
      · rename_i first _ _
        have hlog : ∀ o : Outcome, (o, s, log ++ [SqsCall.ReceiveMessage s.queueURL 1 20] ++
            [SqsCall.DeleteMessage s.queueURL first.ReceiptHandle]).2.2 =
            log ++ [SqsCall.ReceiveMessage s.queueURL 1 20,
              SqsCall.DeleteMessage s.queueURL first.ReceiptHandle] := by
          intro o; simp
        refine ⟨[.ReceiveMessage s.queueURL 1 20,
          .DeleteMessage s.queueURL first.ReceiptHandle], ?_, rfl,
          by simp [SqsCall.queueUrlOf], by simp, by simp⟩
        split
        · exact hlog _
        · split <;> exact hlog _

/-- C6: for two sequential requests (`SendMessage` or `ReceiveMessage`) on one
`SQSController`, if the first request ran `setupQueue` and it stored a non-empty
queue URL `u`, the second request issues no `CreateQueue`, leaves `u` stored and
addresses every queue operation it issues to `u`: a `SendMessage` request with a
valid body issues exactly `SendMessage` on `u`, a `ReceiveMessage` request
starts with `ReceiveMessage` on `u`. -/
theorem sqs_second_request_reuses_queue (client : SqsClient) (s0 : SQSController)
    (log0 : List SqsCall) (r1 r2 : SqsRequest) (u : String)
    (hempty : s0.queueURL = "")
    (hcreate : client.CreateQueue (log0 ++ [.CreateQueue s0.queueName]) = .ok ⟨some u⟩)
    (hu : u ≠ "") :
    ∀ o1 s1 log1 o2 s2 log2,
      sqsRoute client s0 r1 log0 = (o1, s1, log1) →
      sqsRoute client s1 r2 log1 = (o2, s2, log2) →
      s1.queueURL = u ∧ s2.queueURL = u ∧
        countCreateQueue (newCalls log1 log2) = 0 ∧
        (∀ c ∈ newCalls log1 log2, c.queueUrlOf = some u) ∧
        (∀ m, r2 = .send (some m) → newCalls log1 log2 = [.SendMessage u m.Message]) ∧
        (r2 = .receive → (newCalls log1 log2).head? = some (.ReceiveMessage u 1 20)) := by
  intro o1 s1 log1 o2 s2 log2 h1 h2
  have hs1 : s1 = { s0 with queueURL := u } := by
    have := sqsRoute_fields client s0 r1 log0
    rw [h1, queueGuard_first client s0 log0 u hempty hcreate] at this
    exact this
  have hu1 : s1.queueURL = u := by rw [hs1]
  have hne : s1.queueURL ≠ "" := by rw [hu1]; exact hu
  have hs2 : s2 = s1 := by
    have := sqsRoute_fields client s1 r2 log1
    rw [h2, queueGuard_ready client s1 log1 hne] at this
    exact this
  obtain ⟨calls, hlog, hcount, hurl, hsend, hrecv⟩ := sqsRoute_ready client s1 r2 log1 hne
  rw [h2] at hlog
  simp only at hlog
  rw [hlog, newCalls_append]
  rw [hu1] at hurl hsend hrecv
  exact ⟨hu1, by rw [hs2, hu1], hcount, hurl, hsend, hrecv⟩

/-- Witness for C6: `SendMessage` twice on a fresh controller. -/
theorem sqs_second_request_reuses_queue_witness :
    (⟨demoQueueUrl, "demo-queue"⟩ : SQSController).queueURL = demoQueueUrl ∧
      (⟨demoQueueUrl, "demo-queue"⟩ : SQSController).queueURL = demoQueueUrl ∧
      countCreateQueue (newCalls
        [SqsCall.CreateQueue "demo-queue", SqsCall.SendMessage demoQueueUrl "one"]
        [SqsCall.CreateQueue "demo-queue", SqsCall.SendMessage demoQueueUrl "one",
          SqsCall.SendMessage demoQueueUrl "two"]) = 0 ∧
      (∀ c ∈ newCalls
        [SqsCall.CreateQueue "demo-queue", SqsCall.SendMessage demoQueueUrl "one"]
        [SqsCall.CreateQueue "demo-queue", SqsCall.SendMessage demoQueueUrl "one",
          SqsCall.SendMessage demoQueueUrl "two"], c.queueUrlOf = some demoQueueUrl) ∧
      (∀ m, SqsRequest.send (some ⟨"two"⟩) = .send (some m) → newCalls
        [SqsCall.CreateQueue "demo-queue", SqsCall.SendMessage demoQueueUrl "one"]
        [SqsCall.CreateQueue "demo-queue", SqsCall.SendMessage demoQueueUrl "one",
          SqsCall.SendMessage demoQueueUrl "two"] = [.SendMessage demoQueueUrl m.Message]) ∧
      (SqsRequest.send (some ⟨"two"⟩) = .receive → (newCalls
        [SqsCall.CreateQueue "demo-queue", SqsCall.SendMessage demoQueueUrl "one"]
        [SqsCall.CreateQueue "demo-queue", SqsCall.SendMessage demoQueueUrl "one",
          SqsCall.SendMessage demoQueueUrl "two"]).head? =
            some (.ReceiveMessage demoQueueUrl 1 20)) :=
  sqs_second_request_reuses_queue sqsOkClient NewSQSController []
    (.send (some ⟨"one"⟩)) (.send (some ⟨"two"⟩)) demoQueueUrl rfl rfl (by decide)
    (Outcome.replied ⟨200, .object [("message", .str "Mensagem enviada com sucesso")]⟩)
    ⟨demoQueueUrl, "demo-queue"⟩
    [SqsCall.CreateQueue "demo-queue", SqsCall.SendMessage demoQueueUrl "one"]
    (Outcome.replied ⟨200, .object [("message", .str "Mensagem enviada com sucesso")]⟩)
    ⟨demoQueueUrl, "demo-queue"⟩
    [SqsCall.CreateQueue "demo-queue", SqsCall.SendMessage demoQueueUrl "one",
      SqsCall.SendMessage demoQueueUrl "two"]
    (by simp [sqsRoute, SendMessage, queueGuard, setupQueue, NewSQSController, sqsOkClient])
    (by simp [sqsRoute, SendMessage, queueGuard, sqsOkClient, demoQueueUrl])

/-! ## `setupTable` and `setupBucket` run on every request -/

/-- The calls of `setupTable`: `DescribeTable` first; nothing else when it
succeeds; every call is a provisioning call. -/
theorem setupTable_calls (client : DynamoClient) (log : List DynamoCall) :
    ∃ calls, (setupTable client log).2 = log ++ (DynamoCall.DescribeTable "users" :: calls) ∧
      (∀ c ∈ calls, c.isProvisioning = true) ∧
      ((∃ a, client.DescribeTable (log ++ [.DescribeTable "users"]) = .ok a) → calls = []) := by
  simp only [setupTable]
  split
  · exact ⟨[], rfl, by simp, fun _ => rfl⟩
  · rename_i hd
    split
    · exact ⟨[.CreateTable "users" "id" "S" "id" "HASH" 5 5], by simp,
        by simp [DynamoCall.isProvisioning], by simp [hd]⟩
    · split
      · exact ⟨[.CreateTable "users" "id" "S" "id" "HASH" 5 5, .WaitTableExists "users" 30],
          by simp, by simp [DynamoCall.isProvisioning], by simp [hd]⟩
      · exact ⟨[.CreateTable "users" "id" "S" "id" "HASH" 5 5, .WaitTableExists "users" 30],
          by simp, by simp [DynamoCall.isProvisioning], by simp [hd]⟩

/-- Every handler of `DynamoDBController` first runs `setupTable` and afterwards
issues only calls that are not provisioning calls. -/
theorem dynamoHandle_calls (client : DynamoClient) (req : DynamoRequest)
    (log : List DynamoCall) :
    ∃ rest, (dynamoHandle client req log).2 = (setupTable client log).2 ++ rest ∧
      ∀ c ∈ rest, c.isProvisioning = false := by
  cases hs : setupTable client log with
  | mk err log1 =>
    cases req with
    | createUser body newId now =>
      simp only [dynamoHandle, CreateUser, hs]
      cases err with
      | nil =>
        cases body with
        | none => exact ⟨[], by simp, by simp⟩
        | some bound =>
          simp only []
          split <;> exact ⟨[_], rfl, by simp [DynamoCall.isProvisioning]⟩
      | err text => exact ⟨[], by simp, by simp⟩
      | panicked => exact ⟨[], by simp, by simp⟩
    | getUser id =>
      simp only [dynamoHandle, GetUser, hs]
      cases err with
      | nil =>
        simp only []
        split
        · exact ⟨[], by simp, by simp⟩
        · split
          · exact ⟨[_], rfl, by simp [DynamoCall.isProvisioning]⟩
          · split
            · exact ⟨[_], rfl, by simp [DynamoCall.isProvisioning]⟩
            · split <;> exact ⟨[_], rfl, by simp [DynamoCall.isProvisioning]⟩
      | err text => exact ⟨[], by simp, by simp⟩
      | panicked => exact ⟨[], by simp, by simp⟩
    | updateUser id body =>
      simp only [dynamoHandle, UpdateUser, hs]
      cases err with
      | nil =>
        simp only []
        split
        · exact ⟨[], by simp, by simp⟩
        · cases body with
          | none => exact ⟨[], by simp, by simp⟩
          | some user =>
            simp only []
            split
            · exact ⟨[_], rfl, by simp [DynamoCall.isProvisioning]⟩
            · split
              · exact ⟨[_, _], List.append_assoc _ _ _, by simp [DynamoCall.isProvisioning]⟩
              · split <;> exact ⟨[_, _], List.append_assoc _ _ _, by simp [DynamoCall.isProvisioning]⟩
      | err text => exact ⟨[], by simp, by simp⟩
      | panicked => exact ⟨[], by simp, by simp⟩
    | deleteUser id =>
      simp only [dynamoHandle, DeleteUser, hs]
      cases err with
      | nil =>
        simp only []
        split
        · exact ⟨[], by simp, by simp⟩
        · split <;> exact ⟨[_], rfl, by simp [DynamoCall.isProvisioning]⟩
      | err text => exact ⟨[], by simp, by simp⟩
      | panicked => exact ⟨[], by simp, by simp⟩
    | listUsers =>
      simp only [dynamoHandle, ListUsers, hs]
      cases err with
      | nil =>
        simp only []
        split
        · exact ⟨[_], rfl, by simp [DynamoCall.isProvisioning]⟩
        · split <;> exact ⟨[_], rfl, by simp [DynamoCall.isProvisioning]⟩
      | err text => exact ⟨[], by simp, by simp⟩
      | panicked => exact ⟨[], by simp, by simp⟩

theorem provisioning_filter_append_rest (calls rest : List DynamoCall)
    (hcalls : ∀ c ∈ calls, c.isProvisioning = true)
    (hrest : ∀ c ∈ rest, c.isProvisioning = false) :
    (calls ++ rest).filter DynamoCall.isProvisioning = calls := by
  rw [List.filter_append, List.filter_eq_self.mpr hcalls,
    List.filter_eq_nil_iff.mpr (fun c hc => by simp [hrest c hc]), List.append_nil]

/-- The calls of `UploadFile`: one `CreateBucket` first, then no further
`CreateBucket`. -/
theorem uploadFile_calls (client : S3Client) (formFile : Option FileHeader)
    (log : List S3Call) :
    ∃ rest, (UploadFile client formFile log).2 =
        log ++ (S3Call.CreateBucket "demo-bucket" "sa-east-1" :: rest) ∧
      countCreateBucket rest = 0 := by
  cases hs : setupBucket client log with
  | mk err log1 =>
    have hlog : log1 = log ++ [S3Call.CreateBucket "demo-bucket" "sa-east-1"] := by
      have : (setupBucket client log).2 =
          log ++ [S3Call.CreateBucket "demo-bucket" "sa-east-1"] := by
        simp only [setupBucket]
        split
        · split <;> rfl
        · rfl
      rw [hs] at this
      exact this
    subst hlog
    simp only [UploadFile, hs]
    cases err with
    | err text => exact ⟨[], rfl, rfl⟩
    | panicked => exact ⟨[], rfl, rfl⟩
    | nil =>
      cases formFile with
      | none => exact ⟨[], rfl, rfl⟩
      | some file =>
        simp only []
        split
        · exact ⟨[], rfl, rfl⟩
        · split <;> exact ⟨[_], List.append_assoc _ _ _, rfl⟩

/-- C7 (counterexample): on a backend where the table and the bucket exist, a
first request completes setup successfully (`setupTable` and `setupBucket`
return `nil`), and the next request on the same controller still issues a
provisioning call: `DescribeTable` again, `CreateBucket` again. -/
theorem setup_is_not_cached :
    (setupTable tableExistsClient []).1 = GoError.nil ∧
    (dynamoHandle tableExistsClient (.deleteUser "1") []).2 =
      [DynamoCall.DescribeTable "users", DynamoCall.DeleteItem "users" "1"] ∧
    (newCalls [DynamoCall.DescribeTable "users", DynamoCall.DeleteItem "users" "1"]
      (dynamoHandle tableExistsClient (.deleteUser "2")
        [DynamoCall.DescribeTable "users", DynamoCall.DeleteItem "users" "1"]).2).filter
        DynamoCall.isProvisioning = [DynamoCall.DescribeTable "users"] ∧
    (setupBucket s3OkClient []).1 = GoError.nil ∧
    (UploadFile s3OkClient (some demoFile) []).2 =
      [S3Call.CreateBucket "demo-bucket" "sa-east-1",
       S3Call.PutObject "demo-bucket" "a.txt" "hello"] ∧
    countCreateBucket
      (newCalls [S3Call.CreateBucket "demo-bucket" "sa-east-1",
          S3Call.PutObject "demo-bucket" "a.txt" "hello"]
        (UploadFile s3OkClient (some demoFile)
          [S3Call.CreateBucket "demo-bucket" "sa-east-1",
           S3Call.PutObject "demo-bucket" "a.txt" "hello"]).2) = 1 := by
  refine ⟨?_, ?_, ?_, ?_, ?_, ?_⟩
  · simp [setupTable, tableExistsClient]
  · simp [dynamoHandle, DeleteUser, setupTable, tableExistsClient]
  · simp [dynamoHandle, DeleteUser, setupTable, tableExistsClient, newCalls,
      DynamoCall.isProvisioning]
  · simp [setupBucket, s3OkClient]
  · simp [UploadFile, setupBucket, s3OkClient, demoFile]
  · simp [UploadFile, setupBucket, s3OkClient, demoFile, newCalls, countCreateBucket]

/-- C7 (amended): the table-ensure and bucket-ensure guards keep no cache, so
every request runs setup again, whatever earlier requests did.  Every DynamoDB
request issues `DescribeTable` as its first backend call, and when that call
succeeds it is the only provisioning call of the request (no `CreateTable`, no
table wait).  Every `UploadFile` request issues `CreateBucket` as its first
backend call and issues it exactly once. -/
theorem setup_runs_on_every_request :
    (∀ (client : DynamoClient) (req : DynamoRequest) (log : List DynamoCall),
      (newCalls log (dynamoHandle client req log).2).head? =
          some (DynamoCall.DescribeTable "users") ∧
        ((∃ a, client.DescribeTable (log ++ [.DescribeTable "users"]) = .ok a) →
          (newCalls log (dynamoHandle client req log).2).filter DynamoCall.isProvisioning =
            [DynamoCall.DescribeTable "users"])) ∧
    (∀ (client : S3Client) (formFile : Option FileHeader) (log : List S3Call),
      (newCalls log (UploadFile client formFile log).2).head? =
          some (S3Call.CreateBucket "demo-bucket" "sa-east-1") ∧
        countCreateBucket (newCalls log (UploadFile client formFile log).2) = 1) := by
  constructor
  · intro client req log
    obtain ⟨calls, hsetup, hprov, hexists⟩ := setupTable_calls client log
    obtain ⟨rest, hlog, hrest⟩ := dynamoHandle_calls client req log
    rw [hlog, hsetup, List.append_assoc, newCalls_append]
    refine ⟨rfl, fun hok => ?_⟩
    rw [hexists hok]
    exact provisioning_filter_append_rest [DynamoCall.DescribeTable "users"] rest
      (by simp [DynamoCall.isProvisioning]) hrest
  · intro client formFile log
    obtain ⟨rest, hlog, hcount⟩ := uploadFile_calls client formFile log
    rw [hlog, newCalls_append]
    refine ⟨rfl, ?_⟩
    simp only [countCreateBucket, List.filter_cons] at hcount ⊢
    simp [hcount]

/-- Witness for C7 (amended): a second `DeleteUser` on a backend where the table
exists. -/
theorem setup_runs_on_every_request_witness :
    (newCalls [DynamoCall.DescribeTable "users", DynamoCall.DeleteItem "users" "1"]
      (dynamoHandle tableExistsClient (.deleteUser "2")
        [DynamoCall.DescribeTable "users", DynamoCall.DeleteItem "users" "1"]).2).filter
        DynamoCall.isProvisioning = [DynamoCall.DescribeTable "users"] :=
  (setup_runs_on_every_request.1 tableExistsClient (.deleteUser "2")
    [DynamoCall.DescribeTable "users", DynamoCall.DeleteItem "users" "1"]).2 ⟨(), rfl⟩

/-! ## When `setupTable` creates the table -/

/-- C9 (the code at the failing input): `DescribeTable` fails with
`AccessDeniedException`, a failure other than absence of the table.  `setupTable`
tests only `err == nil`, takes the failure for absence and issues `CreateTable`
instead of aborting. -/
theorem setupTable_creates_on_access_denied :
    accessDeniedClient.DescribeTable [DynamoCall.DescribeTable "users"] =
      .error accessDeniedError ∧
    accessDeniedError.code = "AccessDeniedException" ∧
    accessDeniedError.code ≠ "ResourceNotFoundException" ∧
    setupTable accessDeniedClient [] =
      (.err ("erro ao criar tabela: " ++ accessDeniedError.text),
        [DynamoCall.DescribeTable "users",
         DynamoCall.CreateTable "users" "id" "S" "id" "HASH" 5 5]) := by
  refine ⟨rfl, rfl, by decide, ?_⟩
  simp [setupTable, accessDeniedClient]

/-- What `setupTable` does for each reply: `CreateTable` is called exactly when
`DescribeTable` fails, whatever the failure.  When `DescribeTable` succeeds it
returns `nil` after that single call; when `CreateTable` fails it returns that
error without waiting; the table wait is issued exactly when `DescribeTable`
failed and `CreateTable` succeeded, and its result is the result of
`setupTable`. -/
theorem setupTable_creates_iff_describe_fails (client : DynamoClient)
    (log : List DynamoCall) :
    ((∃ a, client.DescribeTable (log ++ [.DescribeTable "users"]) = .ok a) →
      setupTable client log = (.nil, log ++ [.DescribeTable "users"])) ∧
    (DynamoCall.CreateTable "users" "id" "S" "id" "HASH" 5 5 ∈
        newCalls log (setupTable client log).2 ↔
      ∃ e, client.DescribeTable (log ++ [.DescribeTable "users"]) = .error e) ∧
    (∀ e, (∃ d, client.DescribeTable (log ++ [.DescribeTable "users"]) = .error d) →
      client.CreateTable (log ++ [.DescribeTable "users",
        .CreateTable "users" "id" "S" "id" "HASH" 5 5]) = .error e →
      setupTable client log = (.err ("erro ao criar tabela: " ++ e.text),
        log ++ [.DescribeTable "users", .CreateTable "users" "id" "S" "id" "HASH" 5 5])) ∧
    (DynamoCall.WaitTableExists "users" 30 ∈ newCalls log (setupTable client log).2 ↔
      (∃ e, client.DescribeTable (log ++ [.DescribeTable "users"]) = .error e) ∧
      ∃ a, client.CreateTable (log ++ [.DescribeTable "users",
        .CreateTable "users" "id" "S" "id" "HASH" 5 5]) = .ok a) ∧
    ((∃ e, client.DescribeTable (log ++ [.DescribeTable "users"]) = .error e) →
      (∃ a, client.CreateTable (log ++ [.DescribeTable "users",
        .CreateTable "users" "id" "S" "id" "HASH" 5 5]) = .ok a) →
      setupTable client log =
        (match client.WaitTableExists (log ++ [.DescribeTable "users",
            .CreateTable "users" "id" "S" "id" "HASH" 5 5, .WaitTableExists "users" 30]) with
          | .error e => GoError.err ("erro ao esperar tabela ficar ativa: " ++ e.text)
          | .ok _ => GoError.nil,
         log ++ [.DescribeTable "users", .CreateTable "users" "id" "S" "id" "HASH" 5 5,
           .WaitTableExists "users" 30])) := by
  cases hd : client.DescribeTable (log ++ [.DescribeTable "users"]) with
  | ok a => simp [setupTable, hd, newCalls]
  | error d =>
    cases hc : client.CreateTable (log ++ [.DescribeTable "users",
        .CreateTable "users" "id" "S" "id" "HASH" 5 5]) with
    | error e => simp [setupTable, hd, hc, newCalls]
    | ok a =>
      cases hw : client.WaitTableExists (log ++ [.DescribeTable "users",
          .CreateTable "users" "id" "S" "id" "HASH" 5 5, .WaitTableExists "users" 30]) with
      | error e => simp [setupTable, hd, hc, hw, newCalls]
      | ok b => simp [setupTable, hd, hc, hw, newCalls]

/-- Example: the table is absent, is created and becomes active. -/
theorem setupTable_creates_iff_describe_fails_witness :
    setupTable tableAbsentClient [] =
      (GoError.nil,
        [DynamoCall.DescribeTable "users",
         DynamoCall.CreateTable "users" "id" "S" "id" "HASH" 5 5,
         DynamoCall.WaitTableExists "users" 30]) :=
  (setupTable_creates_iff_describe_fails tableAbsentClient []).2.2.2.2 ⟨_, rfl⟩ ⟨(), rfl⟩

/-! ## The result handle of `CreateAPI` -/

/-- C10 (counterexample): all eight steps succeed; the first step returns the
REST API id `api-1` and the final step, `CreateDeployment`, returns the id
`dep-1`.  The `api_id` of the 200 response is `api-1` and the `url` is built from
`api-1`; neither is the identifier produced by the final step. -/
theorem createAPI_handle_not_from_final_step :
    allSucceedClient.CreateDeployment
        (createAPISteps demoAPIRequest (some "api-1") (some "root-1") (some "res-1")) =
      .ok ⟨some "dep-1"⟩ ∧
    CreateAPI allSucceedClient (some demoAPIRequest) [] =
      (.replied ⟨200, .object [("message", .str "API criada com sucesso"),
          ("api_id", .str "api-1"),
          ("url", .str "http://localhost:4566/restapis/api-1/test/stages/test")]⟩,
        createAPISteps demoAPIRequest (some "api-1") (some "root-1") (some "res-1")) ∧
    (∀ r, (CreateAPI allSucceedClient (some demoAPIRequest) []).1 = .replied r →
      r.status = 200 ∧ r.field "api_id" ≠ some (.str "dep-1") ∧
        r.field "url" ≠ some (.str "dep-1")) := by
  have hrun : CreateAPI allSucceedClient (some demoAPIRequest) [] =
      (.replied ⟨200, .object [("message", .str "API criada com sucesso"),
          ("api_id", .str "api-1"),
          ("url", .str "http://localhost:4566/restapis/api-1/test/stages/test")]⟩,
        createAPISteps demoAPIRequest (some "api-1") (some "root-1") (some "res-1")) := by
    simp [CreateAPI, allSucceedClient, createAPISteps, demoAPIRequest]
  refine ⟨rfl, hrun, ?_⟩
  intro r hr
  rw [hrun] at hr
  cases hr
  refine ⟨rfl, ?_, ?_⟩ <;> simp [Response.field, List.lookup]

/-- C10 (amended): when all eight steps of `CreateAPI` succeed, the response has
status 200, its `api_id` is the id returned by the first step (`CreateRestApi`)
and its `url` is `http://localhost:4566/restapis/<id>/test/stages/test` for that
same id; the output `dep` of the final step (`CreateDeployment`) is not used. -/
theorem createAPI_handle_is_rest_api_id (client : ApiGatewayClient)
    (req : CreateAPIRequest) (log : List ApiCall) (id : String)
    (rootId resourceId : Option String) (dep : CreateDeploymentOutput)
    (hapi : client.CreateRestApi
      (log ++ (createAPISteps req (some id) rootId resourceId).take 1) = .ok ⟨some id⟩)
    (hroot : ∃ rest, client.GetResources
      (log ++ (createAPISteps req (some id) rootId resourceId).take 2)
        = .ok ⟨⟨rootId⟩ :: rest⟩)
    (hres : client.CreateResource
      (log ++ (createAPISteps req (some id) rootId resourceId).take 3) = .ok ⟨resourceId⟩)
    (hput : ∀ j call, 3 ≤ j → j < 7 →
      (createAPISteps req (some id) rootId resourceId)[j]? = some call →
      client.failure (log ++ (createAPISteps req (some id) rootId resourceId).take j) call
        = none)
    (hdep : client.CreateDeployment (log ++ createAPISteps req (some id) rootId resourceId)
      = .ok dep) :
    CreateAPI client (some req) log =
      (.replied ⟨200, .object [("message", .str "API criada com sucesso"),
          ("api_id", .str id),
          ("url", .str ("http://localhost:4566/restapis/" ++ id ++ "/test/stages/test"))]⟩,
        log ++ createAPISteps req (some id) rootId resourceId) := by
  have hall := createAPI_all_succeed client req log (some id) rootId resourceId hapi hroot hres
    (by
      intro j call hcall
      have hj : j < 8 := by
        by_contra hge
        have hlen : (createAPISteps req (some id) rootId resourceId).length ≤ j := by
          simp [createAPISteps]; omega
        rw [List.getElem?_eq_none hlen] at hcall
        cases hcall
      interval_cases j
      · simp [createAPISteps] at hcall hapi
        subst hcall
        simp [ApiGatewayClient.failure, replyError, hapi]
      · obtain ⟨rest, hroot⟩ := hroot
        simp [createAPISteps] at hcall hroot
        subst hcall
        simp [ApiGatewayClient.failure, replyError, createAPISteps, hroot]
      · simp [createAPISteps] at hcall hres
        subst hcall
        simp [ApiGatewayClient.failure, replyError, createAPISteps, hres]
      · exact hput 3 call (by omega) (by omega) hcall
      · exact hput 4 call (by omega) (by omega) hcall
      · exact hput 5 call (by omega) (by omega) hcall
      · exact hput 6 call (by omega) (by omega) hcall
      · simp [createAPISteps] at hcall hdep
        subst hcall
        simp [ApiGatewayClient.failure, replyError, createAPISteps, hdep])
  simpa using hall

/-- Witness for C10 (amended): every step succeeds. -/
theorem createAPI_handle_is_rest_api_id_witness :
    CreateAPI allSucceedClient (some demoAPIRequest) [] =
      (.replied ⟨200, .object [("message", .str "API criada com sucesso"),
          ("api_id", .str "api-1"),
          ("url", .str ("http://localhost:4566/restapis/" ++ "api-1" ++ "/test/stages/test"))]⟩,
        [] ++ createAPISteps demoAPIRequest (some "api-1") (some "root-1") (some "res-1")) :=
  createAPI_handle_is_rest_api_id allSucceedClient demoAPIRequest [] "api-1"
    (some "root-1") (some "res-1") ⟨some "dep-1"⟩ rfl ⟨[], rfl⟩ rfl
    (fun j call h3 h7 hcall => by
      interval_cases j <;> simp [createAPISteps] at hcall <;> subst hcall <;> rfl)
    rfl

/-! ## Error messages of `CreateAPI` -/

/-- Texts that differ at a position present in both stay different whatever is
appended to them. -/
theorem append_ne_of_differWithin :
    ∀ (p q a b : List Char), differWithin p q = true → p ++ a ≠ q ++ b
  | [], _, _, _, h => by simp [differWithin] at h
  | _ :: _, [], _, _, h => by simp [differWithin] at h
  | x :: xs, y :: ys, a, b, h => by
    intro heq
    simp only [List.cons_append, List.cons.injEq] at heq
    simp only [differWithin, Bool.or_eq_true, bne_iff_ne, ne_eq] at h
    rcases h with h | h
    · exact h heq.1
    · exact append_ne_of_differWithin xs ys a b h heq.2

theorem string_append_ne_of_differWithin (p q a b : String)
    (h : differWithin p.data q.data = true) : p ++ a ≠ q ++ b := by
  intro heq
  have hdata := congrArg String.data heq
  simp only [String.data_append] at hdata
  exact append_ne_of_differWithin p.data q.data a.data b.data h hdata

/-- The message prefixes of two different steps differ at a position present in
both. -/
theorem createAPIErrorPrefix_differWithin (i j : Nat) (hi1 : 1 ≤ i) (hi8 : i ≤ 8)
    (hj1 : 1 ≤ j) (hj8 : j ≤ 8) (hij : i ≠ j) :
    differWithin (createAPIErrorPrefix i).data (createAPIErrorPrefix j).data = true := by
  interval_cases i <;> interval_cases j <;> first | (exact absurd rfl hij) | decide

/-- The outcome of `CreateAPI` when step `k` is the first to fail. -/
theorem createAPI_of_failsAtStep (client : ApiGatewayClient) (req : CreateAPIRequest)
    (log : List ApiCall) (k : Nat) (apiId rootId resourceId : Option String)
    (e : BackendError) (h : FailsAtStep client req log k apiId rootId resourceId e) :
    (CreateAPI client (some req) log).1 =
      errorResponse 500 (createAPIErrorPrefix k ++ e.text) := by
  obtain ⟨hk1, hk8, hapi, hroot, hres, hok, hfail⟩ := h
  rw [createAPI_abort client req log k apiId rootId resourceId e hk1 hk8 hapi hroot hres
    hok hfail]

/-- C11: in `CreateAPI` the error message of a failed request identifies the
failing step and its cause.  If one request fails first at step `i` with backend
error `e1` and another fails first at step `j ≠ i` with backend error `e2`, the
two responses carry the messages `createAPIErrorPrefix i ++ e1.text` and
`createAPIErrorPrefix j ++ e2.text`; these differ whatever the two error texts
are, and each ends with its backend error text. -/
theorem createAPI_error_messages_distinct
    (client1 client2 : ApiGatewayClient) (req1 req2 : CreateAPIRequest)
    (log1 log2 : List ApiCall) (i j : Nat)
    (apiId1 rootId1 resourceId1 apiId2 rootId2 resourceId2 : Option String)
    (e1 e2 : BackendError)
    (h1 : FailsAtStep client1 req1 log1 i apiId1 rootId1 resourceId1 e1)
    (h2 : FailsAtStep client2 req2 log2 j apiId2 rootId2 resourceId2 e2)
    (hij : i ≠ j) :
    ∃ m1 m2,
      (CreateAPI client1 (some req1) log1).1.errorMessage = some m1 ∧
      (CreateAPI client2 (some req2) log2).1.errorMessage = some m2 ∧
      m1 = createAPIErrorPrefix i ++ e1.text ∧
      m2 = createAPIErrorPrefix j ++ e2.text ∧
      m1 ≠ m2 ∧
      e1.text.data <:+ m1.data ∧ e2.text.data <:+ m2.data ∧
      (CreateAPI client1 (some req1) log1).1 ≠ (CreateAPI client2 (some req2) log2).1 := by
  have hne : createAPIErrorPrefix i ++ e1.text ≠ createAPIErrorPrefix j ++ e2.text :=
    string_append_ne_of_differWithin _ _ _ _
      (createAPIErrorPrefix_differWithin i j h1.1 h1.2.1 h2.1 h2.2.1 hij)
  rw [createAPI_of_failsAtStep client1 req1 log1 i apiId1 rootId1 resourceId1 e1 h1,
    createAPI_of_failsAtStep client2 req2 log2 j apiId2 rootId2 resourceId2 e2 h2]
  refine ⟨_, _, rfl, rfl, rfl, rfl, hne, ?_, ?_, ?_⟩
  · exact ⟨(createAPIErrorPrefix i).data, by simp [String.data_append]⟩
  · exact ⟨(createAPIErrorPrefix j).data, by simp [String.data_append]⟩
  · intro heq
    apply hne
    simpa [errorResponse] using heq

/-- Witness for C11: `CreateResource` (step 3) fails on one backend and
`PutIntegration` (step 5) fails on another. -/
theorem createAPI_error_messages_distinct_witness :
    ∃ m1 m2,
      (CreateAPI resourceFailsClient (some demoAPIRequest) []).1.errorMessage = some m1 ∧
      (CreateAPI integrationFailsClient (some demoAPIRequest) []).1.errorMessage = some m2 ∧
      m1 = createAPIErrorPrefix 3 ++
        "ConflictException: Another resource with the same parent already has this name: test" ∧
      m2 = createAPIErrorPrefix 5 ++ "BadRequestException: Invalid integration URI" ∧
      m1 ≠ m2 ∧
      ("ConflictException: Another resource with the same parent already has this name: test"
        : String).data <:+ m1.data ∧
      ("BadRequestException: Invalid integration URI" : String).data <:+ m2.data ∧
      (CreateAPI resourceFailsClient (some demoAPIRequest) []).1 ≠
        (CreateAPI integrationFailsClient (some demoAPIRequest) []).1 :=
  createAPI_error_messages_distinct resourceFailsClient integrationFailsClient
    demoAPIRequest demoAPIRequest [] [] 3 5
    (some "api-1") (some "root-1") none (some "api-1") (some "root-1") (some "res-1")
    ⟨"ConflictException",
      "ConflictException: Another resource with the same parent already has this name: test"⟩
    ⟨"BadRequestException", "BadRequestException: Invalid integration URI"⟩
    ⟨by decide, by decide, fun _ => rfl, fun _ => ⟨[], rfl⟩,
      fun h => absurd h (by decide),
      fun j call hj hcall => by
        have hj2 : j < 2 := by omega
        interval_cases j <;> simp [createAPISteps] at hcall <;> subst hcall <;> rfl,
      ⟨_, rfl, rfl⟩⟩
    ⟨by decide, by decide, fun _ => rfl, fun _ => ⟨[], rfl⟩, fun _ => rfl,
      fun j call hj hcall => by
        have hj4 : j < 4 := by omega
        interval_cases j <;> simp [createAPISteps] at hcall <;> subst hcall <;> rfl,
      ⟨_, rfl, rfl⟩⟩
    (by decide)

/-! ## Timeout and hard failures of `InvokeFunction` -/

/-- If the `m`-th reply is an error and no earlier reply reports `Active`, the
loop returns from the handler with the `GetFunction` error after `m` calls. -/
theorem pollLoop_fails (client : LambdaClient) (functionName : String) (e : BackendError)
    (n : Nat) :
    ∀ (m : Nat) (st : String) (log : List LambdaCall), 1 ≤ m → m ≤ n →
      (∀ j, j + 1 < m → ∃ cfg,
        client.GetFunction (log ++ List.replicate (j + 1) (LambdaCall.GetFunction functionName))
          = .ok ⟨some cfg⟩ ∧ cfg.State ≠ StateActive) →
      client.GetFunction (log ++ List.replicate m (LambdaCall.GetFunction functionName))
        = .error e →
      pollLoop client functionName n st log =
        (.returned (errorResponse 500 ("Erro ao verificar estado da função: " ++ e.text)),
          log ++ List.replicate m (LambdaCall.GetFunction functionName)) := by
  induction n with
  | zero => intro m st log h1 h0; omega
  | succ n ih =>
    intro m st log h1 hm hbefore hfail
    simp only [pollLoop]
    by_cases hm1 : m = 1
    · subst hm1
      simp only [List.replicate_one] at hfail
      simp [hfail]
    · obtain ⟨cfg, hreply, hact⟩ := hbefore 0 (by omega)
      simp only [zero_add, List.replicate_one] at hreply
      simp only [hreply, hact, if_false]
      have hm2 : m = (m - 1) + 1 := by omega
      have hstep := ih (m - 1) cfg.State (log ++ [LambdaCall.GetFunction functionName])
        (by omega) (by omega)
        (by
          intro j hj
          obtain ⟨c, hc, hs⟩ := hbefore (j + 1) (by omega)
          refine ⟨c, ?_, hs⟩
          rw [List.replicate_succ] at hc
          simpa [List.append_assoc] using hc)
        (by
          rw [hm2, List.replicate_succ] at hfail
          simpa [List.append_assoc] using hfail)
      rw [hstep]
      conv_rhs => rw [hm2, List.replicate_succ]
      simp [List.append_assoc]

/-- C12: in `InvokeFunction` the timeout response differs from every
hard-failure response.  A request that times out (5 replies, none failing, none
`Active`) is answered 500 "Função ainda não está ativa"; a request whose `m`-th
`GetFunction` fails with `eG` is answered 500 "Erro ao verificar estado da
função: " followed by the error text; a request whose `Invoke` fails with `eI`
is answered 500 "Erro ao invocar função: " followed by the error text.  Whatever
the error texts, the timeout response differs from both (the status codes are
equal, the bodies differ). -/
theorem invokeFunction_timeout_is_distinct
    (clientT clientG clientI : LambdaClient) (nameT nameG nameI : String)
    (logT logG logI : List LambdaCall) (m k : Nat) (eG eI : BackendError)
    (hnameT : nameT ≠ "")
    (hnever : ∀ j, j < 5 → ∃ cfg,
      clientT.GetFunction (logT ++ List.replicate (j + 1) (LambdaCall.GetFunction nameT))
        = .ok ⟨some cfg⟩ ∧ cfg.State ≠ StateActive)
    (hnameG : nameG ≠ "") (hm1 : 1 ≤ m) (hm5 : m ≤ 5)
    (hbeforeG : ∀ j, j + 1 < m → ∃ cfg,
      clientG.GetFunction (logG ++ List.replicate (j + 1) (LambdaCall.GetFunction nameG))
        = .ok ⟨some cfg⟩ ∧ cfg.State ≠ StateActive)
    (hfailG : clientG.GetFunction (logG ++ List.replicate m (LambdaCall.GetFunction nameG))
      = .error eG)
    (hnameI : nameI ≠ "") (hk1 : 1 ≤ k) (hk5 : k ≤ 5)
    (hbeforeI : ∀ j, j + 1 < k → ∃ cfg,
      clientI.GetFunction (logI ++ List.replicate (j + 1) (LambdaCall.GetFunction nameI))
        = .ok ⟨some cfg⟩ ∧ cfg.State ≠ StateActive)
    (hactiveI : ∃ cfg,
      clientI.GetFunction (logI ++ List.replicate k (LambdaCall.GetFunction nameI))
        = .ok ⟨some cfg⟩ ∧ cfg.State = StateActive)
    (hfailI : clientI.Invoke (logI ++ List.replicate k (LambdaCall.GetFunction nameI) ++
      [LambdaCall.Invoke nameI invokePayload]) = .error eI) :
    (InvokeFunction clientT nameT logT).1 =
        errorResponse 500 "Função ainda não está ativa" ∧
      (InvokeFunction clientG nameG logG).1 =
        errorResponse 500 ("Erro ao verificar estado da função: " ++ eG.text) ∧
      (InvokeFunction clientI nameI logI).1 =
        errorResponse 500 ("Erro ao invocar função: " ++ eI.text) ∧
      (InvokeFunction clientT nameT logT).1 ≠ (InvokeFunction clientG nameG logG).1 ∧
      (InvokeFunction clientT nameT logT).1 ≠ (InvokeFunction clientI nameI logI).1 := by
  obtain ⟨st, hst, hrunT⟩ := pollLoop_never clientT nameT 5 "" logT (by decide) hnever
  have hT : (InvokeFunction clientT nameT logT).1 =
      errorResponse 500 "Função ainda não está ativa" := by
    unfold InvokeFunction
    rw [if_neg hnameT, hrunT]
    simp [hst]
  have hG : (InvokeFunction clientG nameG logG).1 =
      errorResponse 500 ("Erro ao verificar estado da função: " ++ eG.text) := by
    unfold InvokeFunction
    rw [if_neg hnameG, pollLoop_fails clientG nameG eG 5 m "" logG hm1 hm5 hbeforeG hfailG]
  have hI : (InvokeFunction clientI nameI logI).1 =
      errorResponse 500 ("Erro ao invocar função: " ++ eI.text) := by
    unfold InvokeFunction
    rw [if_neg hnameI, pollLoop_active clientI nameI 5 k "" logI hk1 hk5 hbeforeI hactiveI]
    rw [List.append_assoc] at hfailI
    simp [hfailI]
  have hneG : ("Função ainda não está ativa" : String) ≠
      "Erro ao verificar estado da função: " ++ eG.text := by
    have := string_append_ne_of_differWithin "Função ainda não está ativa"
      "Erro ao verificar estado da função: " "" eG.text (by decide)
    simpa using this
  have hneI : ("Função ainda não está ativa" : String) ≠
      "Erro ao invocar função: " ++ eI.text := by
    have := string_append_ne_of_differWithin "Função ainda não está ativa"
      "Erro ao invocar função: " "" eI.text (by decide)
    simpa using this
  refine ⟨hT, hG, hI, ?_, ?_⟩
  · rw [hT, hG]
    intro heq
    apply hneG
    simpa [errorResponse] using heq
  · rw [hT, hI]
    intro heq
    apply hneI
    simpa [errorResponse] using heq

/-- Witness for C12: a function that stays `Pending`, a function that does not
exist, and an active function whose invocation fails. -/
theorem invokeFunction_timeout_is_distinct_witness :
    (InvokeFunction neverActiveClient "minha-funcao" []).1 =
        errorResponse 500 "Função ainda não está ativa" ∧
      (InvokeFunction getFunctionFailsClient "minha-funcao" []).1 =
        errorResponse 500 ("Erro ao verificar estado da função: " ++
          "ResourceNotFoundException: Function not found") ∧
      (InvokeFunction invokeFailsClient "minha-funcao" []).1 =
        errorResponse 500 ("Erro ao invocar função: " ++ "ServiceException: internal error") ∧
      (InvokeFunction neverActiveClient "minha-funcao" []).1 ≠
        (InvokeFunction getFunctionFailsClient "minha-funcao" []).1 ∧
      (InvokeFunction neverActiveClient "minha-funcao" []).1 ≠
        (InvokeFunction invokeFailsClient "minha-funcao" []).1 :=
  invokeFunction_timeout_is_distinct neverActiveClient getFunctionFailsClient
    invokeFailsClient "minha-funcao" "minha-funcao" "minha-funcao" [] [] [] 1 1
    ⟨"ResourceNotFoundException", "ResourceNotFoundException: Function not found"⟩
    ⟨"ServiceException", "ServiceException: internal error"⟩
    (by decide) (fun _ _ => ⟨⟨"Pending"⟩, rfl, by decide⟩)
    (by decide) (by decide) (by decide) (fun j hj => absurd hj (by omega)) rfl
    (by decide) (by decide) (by decide) (fun j hj => absurd hj (by omega))
    ⟨⟨"Active"⟩, rfl, rfl⟩ rfl

/-! ## Transient failures are retried inside one operation call -/

/-- A call makes at least one attempt and at most one more than `more`. -/
theorem retryLoop_attempts {α : Type} (r : Retryer) (attempt : Nat → Except BackendError α)
    (more : Nat) :
    ∀ n, n + 1 ≤ (retryLoop r attempt more n).2 ∧
      (retryLoop r attempt more n).2 ≤ n + more + 1 := by
  induction more with
  | zero => intro n; simp [retryLoop]
  | succ more ih =>
    intro n
    simp only [retryLoop]
    split
    · simp
    · split
      · have := ih (n + 1)
        omega
      · simp

/-- When the first `more` attempts all fail with transient errors, the reply of
the last allowed attempt is the result of the call. -/
theorem retryLoop_exhausted {α : Type} (r : Retryer) (attempt : Nat → Except BackendError α)
    (more : Nat) :
    ∀ n, (∀ i, i < more → ∃ e, attempt (n + i) = .error e ∧ r.isTransient e = true) →
      retryLoop r attempt more n = (attempt (n + more), n + more + 1) := by
  induction more with
  | zero => intro n _; simp [retryLoop]
  | succ more ih =>
    intro n hall
    obtain ⟨e, he, ht⟩ := hall 0 (by omega)
    simp only [Nat.add_zero] at he
    simp only [retryLoop, he, ht, if_true]
    rw [ih (n + 1) (fun i hi => by
      obtain ⟨e', he', ht'⟩ := hall (i + 1) (by omega)
      exact ⟨e', by rw [← he']; congr 1; omega, ht'⟩)]
    have h1 : n + 1 + more = n + (more + 1) := by omega
    rw [h1]

/-- When the first attempt fails with a transient error and the second succeeds,
the call succeeds after two attempts. -/
theorem withRetry_second_attempt {α : Type} (r : Retryer)
    (attempt : Nat → Except BackendError α) (e : BackendError) (a : α)
    (hmax : 2 ≤ r.maxAttempts) (h0 : attempt 0 = .error e) (ht : r.isTransient e = true)
    (h1 : attempt 1 = .ok a) :
    withRetry r attempt = (.ok a, 2) := by
  obtain ⟨m, hm⟩ : ∃ m, r.maxAttempts - 1 = m + 1 := ⟨r.maxAttempts - 2, by omega⟩
  simp only [withRetry, hm, retryLoop, h0, ht, if_true]
  cases m <;> simp [retryLoop, h1]

/-- When the first attempt succeeds, the call succeeds after one attempt. -/
theorem withRetry_first_attempt {α : Type} (r : Retryer)
    (attempt : Nat → Except BackendError α) (a : α) (h0 : attempt 0 = .ok a) :
    withRetry r attempt = (.ok a, 1) := by
  unfold withRetry
  cases r.maxAttempts - 1 <;> simp [retryLoop, h0]

/-- C13: a provisioning step whose backend call fails with a transient error is
retried as a single step a bounded number of times before the failure reaches
the caller.  Under the retryer `r` of the SDK client every operation call makes
at least one and at most `maxAttempts` attempts.  `setupQueue` calls
`CreateQueue` once, and inside that call: if the first attempt fails with a
transient error and the second succeeds, `CreateQueue` is re-issued, two attempts
are made and `setupQueue` stores the URL and returns `nil`; if all `maxAttempts`
attempts fail with transient errors, the error of the last attempt is returned
after exactly `maxAttempts` attempts and the handler answers 500.  In
`setupTopic` a transient failure of the default `Subscribe` is retried without
`CreateTopic` being issued again. -/
theorem transient_failure_is_retried (r : Retryer) :
    (∀ (α : Type) (attempt : Nat → Except BackendError α),
      1 ≤ (withRetry r attempt).2 ∧ (withRetry r attempt).2 ≤ max 1 r.maxAttempts) ∧
    (∀ (wire : SqsWire) (s : SQSController) (log : List SqsCall),
      newCalls log (setupQueue (retryingSqsClient r wire) s log).2.2 =
        [SqsCall.CreateQueue s.queueName]) ∧
    (∀ (wire : SqsWire) (s : SQSController) (log : List SqsCall) (e : BackendError)
      (u : String),
      2 ≤ r.maxAttempts →
      wire.CreateQueue (log ++ [.CreateQueue s.queueName]) 0 = .error e →
      r.isTransient e = true →
      wire.CreateQueue (log ++ [.CreateQueue s.queueName]) 1 = .ok ⟨some u⟩ →
      (withRetry r (wire.CreateQueue (log ++ [.CreateQueue s.queueName]))).2 = 2 ∧
        setupQueue (retryingSqsClient r wire) s log =
          (.nil, { s with queueURL := u }, log ++ [.CreateQueue s.queueName])) ∧
    (∀ (wire : SqsWire) (s : SQSController) (log : List SqsCall),
      1 ≤ r.maxAttempts →
      (∀ n, n < r.maxAttempts → ∃ e,
        wire.CreateQueue (log ++ [.CreateQueue s.queueName]) n = .error e ∧
          r.isTransient e = true) →
      ∃ e, wire.CreateQueue (log ++ [.CreateQueue s.queueName]) (r.maxAttempts - 1)
          = .error e ∧
        (withRetry r (wire.CreateQueue (log ++ [.CreateQueue s.queueName]))).2
          = r.maxAttempts ∧
        setupQueue (retryingSqsClient r wire) s log =
          (.err ("erro ao criar fila SQS: " ++ e.text), s,
            log ++ [.CreateQueue s.queueName]) ∧
        (s.queueURL = "" → ∀ req,
          sqsRoute (retryingSqsClient r wire) s req log =
            (errorResponse 500 ("erro ao criar fila SQS: " ++ e.text), s,
              log ++ [.CreateQueue s.queueName]))) ∧
    (∀ (wire : SnsWire) (s : SNSController) (log : List SnsCall) (arn : String)
      (e : BackendError),
      2 ≤ r.maxAttempts →
      wire.CreateTopic (log ++ [.CreateTopic s.topicName]) 0 = .ok ⟨some arn⟩ →
      wire.Subscribe (log ++ [.CreateTopic s.topicName,
        .Subscribe arn "email" "test@example.com"]) 0 = .error e →
      r.isTransient e = true →
      wire.Subscribe (log ++ [.CreateTopic s.topicName,
        .Subscribe arn "email" "test@example.com"]) 1 = .ok () →
      (withRetry r (wire.CreateTopic (log ++ [.CreateTopic s.topicName]))).2 = 1 ∧
        (withRetry r (wire.Subscribe (log ++ [.CreateTopic s.topicName,
          .Subscribe arn "email" "test@example.com"]))).2 = 2 ∧
        setupTopic (retryingSnsClient r wire) s log =
          (.nil, { s with topicARN := arn },
            log ++ [.CreateTopic s.topicName,
              .Subscribe arn "email" "test@example.com"])) := by
  refine ⟨?_, ?_, ?_, ?_, ?_⟩
  · intro α attempt
    have h := retryLoop_attempts r attempt (r.maxAttempts - 1) 0
    unfold withRetry
    omega
  · intro wire s log
    simp only [setupQueue]
    split
    · simp [newCalls]
    · split <;> simp [newCalls]
  · intro wire s log e u hmax h0 ht h1
    have hcall := withRetry_second_attempt r
      (wire.CreateQueue (log ++ [.CreateQueue s.queueName])) e ⟨some u⟩ hmax h0 ht h1
    refine ⟨by rw [hcall], ?_⟩
    simp [setupQueue, retryingSqsClient, hcall]
  · intro wire s log hmax hall
    have hcall := retryLoop_exhausted r
      (wire.CreateQueue (log ++ [.CreateQueue s.queueName])) (r.maxAttempts - 1) 0
      (fun i hi => by
        obtain ⟨e, he, ht⟩ := hall i (by omega)
        exact ⟨e, by simpa using he, ht⟩)
    obtain ⟨e, he, _⟩ := hall (r.maxAttempts - 1) (by omega)
    simp only [Nat.zero_add] at hcall
    have hcall2 : withRetry r (wire.CreateQueue (log ++ [.CreateQueue s.queueName])) =
        (.error e, r.maxAttempts) := by
      unfold withRetry
      rw [hcall, he]
      congr 1
      omega
    have hsetup : setupQueue (retryingSqsClient r wire) s log =
        (.err ("erro ao criar fila SQS: " ++ e.text), s,
          log ++ [.CreateQueue s.queueName]) := by
      simp [setupQueue, retryingSqsClient, hcall2]
    refine ⟨e, he, by rw [hcall2], hsetup, fun hempty req => ?_⟩
    cases req <;> simp [sqsRoute, SendMessage, ReceiveMessage, queueGuard, hempty, hsetup]
  · intro wire s log arn e hmax hc h0 ht h1
    have hcreate := withRetry_first_attempt r
      (wire.CreateTopic (log ++ [.CreateTopic s.topicName])) ⟨some arn⟩ hc
    have hsub := withRetry_second_attempt r
      (wire.Subscribe (log ++ [.CreateTopic s.topicName,
        .Subscribe arn "email" "test@example.com"])) e () hmax h0 ht h1
    refine ⟨by rw [hcreate], by rw [hsub], ?_⟩
    simp [setupTopic, retryingSnsClient, hcreate, hsub]

/-- Witness for C13: the first `CreateQueue` attempt is answered 503, the second
succeeds. -/
theorem transient_failure_is_retried_witness :
    (withRetry threeAttempts
        (flakySqsWire.CreateQueue ([] ++ [.CreateQueue NewSQSController.queueName]))).2 = 2 ∧
      setupQueue (retryingSqsClient threeAttempts flakySqsWire) NewSQSController [] =
        (.nil, { NewSQSController with queueURL := demoQueueUrl },
          [] ++ [.CreateQueue NewSQSController.queueName]) :=
  (transient_failure_is_retried threeAttempts).2.2.1 flakySqsWire NewSQSController []
    unavailableError demoQueueUrl (by decide) rfl (by decide) rfl

/-! ## The two steps of `setupTopic` -/

/-- C14: `setupTopic` issues `CreateTopic` first.  When `CreateTopic` succeeds
and returns the ARN `arn`, the default `Subscribe` (protocol `email`, endpoint
`test@example.com`) on `arn` is issued exactly once, as the second and last call,
and `arn` is stored.  When `CreateTopic` fails, no `Subscribe` is issued, the
controller fields are unchanged and the error is returned.  In every run a
`Subscribe` among the calls implies that `CreateTopic` succeeded and that the
call is the default subscription on the returned ARN, and there is at most one. -/
theorem setupTopic_subscribes_after_create (client : SnsClient) (s : SNSController)
    (log : List SnsCall) :
    (newCalls log (setupTopic client s log).2.2).head? =
        some (SnsCall.CreateTopic s.topicName) ∧
    (∀ arn, client.CreateTopic (log ++ [.CreateTopic s.topicName]) = .ok ⟨some arn⟩ →
      newCalls log (setupTopic client s log).2.2 =
          [SnsCall.CreateTopic s.topicName,
           SnsCall.Subscribe arn "email" "test@example.com"] ∧
        countSubscribe (newCalls log (setupTopic client s log).2.2) = 1 ∧
        (setupTopic client s log).2.1.topicARN = arn) ∧
    (∀ e, client.CreateTopic (log ++ [.CreateTopic s.topicName]) = .error e →
      newCalls log (setupTopic client s log).2.2 = [SnsCall.CreateTopic s.topicName] ∧
        countSubscribe (newCalls log (setupTopic client s log).2.2) = 0 ∧
        (setupTopic client s log).2.1 = s ∧
        (setupTopic client s log).1 = .err ("erro ao criar tópico SNS: " ++ e.text)) ∧
    (∀ topicArn protocol endpoint,
      SnsCall.Subscribe topicArn protocol endpoint ∈
          newCalls log (setupTopic client s log).2.2 →
        client.CreateTopic (log ++ [.CreateTopic s.topicName]) = .ok ⟨some topicArn⟩ ∧
          protocol = "email" ∧ endpoint = "test@example.com") ∧
    countSubscribe (newCalls log (setupTopic client s log).2.2) ≤ 1 := by
  cases hc : client.CreateTopic (log ++ [.CreateTopic s.topicName]) with
  | error e => simp [setupTopic, hc, newCalls, countSubscribe]
  | ok out =>
    obtain ⟨arnOpt⟩ := out
    cases arnOpt with
    | none => simp [setupTopic, hc, newCalls, countSubscribe]
    | some arn =>
      cases hs : client.Subscribe (log ++ [.CreateTopic s.topicName,
          .Subscribe arn "email" "test@example.com"]) with
      | error e =>
        simp [setupTopic, hc, hs, newCalls, countSubscribe]
        intro topicArn protocol endpoint h1 h2 h3
        exact ⟨h1.symm, h2, h3⟩
      | ok u =>
        simp [setupTopic, hc, hs, newCalls, countSubscribe]
        intro topicArn protocol endpoint h1 h2 h3
        exact ⟨h1.symm, h2, h3⟩

/-- Witness for C14: `CreateTopic` succeeds on a fresh controller. -/
theorem setupTopic_subscribes_after_create_witness :
    newCalls [] (setupTopic snsOkClient NewSNSController []).2.2 =
        [SnsCall.CreateTopic NewSNSController.topicName,
         SnsCall.Subscribe demoTopicArn "email" "test@example.com"] ∧
      countSubscribe (newCalls [] (setupTopic snsOkClient NewSNSController []).2.2) = 1 ∧
      (setupTopic snsOkClient NewSNSController []).2.1.topicARN = demoTopicArn :=
  (setupTopic_subscribes_after_create snsOkClient NewSNSController []).2.1 demoTopicArn rfl

/-! ## `isBucketAlreadyExistsError` matches the whole text -/

/-- C15: `isBucketAlreadyExistsError` answers `true` exactly for a non-nil error
whose `Error()` text is the string `BucketAlreadyOwnedByYou`; hence `setupBucket`
returns `nil` exactly when `CreateBucket` succeeded or failed with an error whose
text is exactly that string. -/
theorem isBucketAlreadyExistsError_exact_match :
    (∀ err : Option BackendError,
      isBucketAlreadyExistsError err = true ↔
        ∃ e, err = some e ∧ e.text = "BucketAlreadyOwnedByYou") ∧
    (∀ (client : S3Client) (log : List S3Call),
      (setupBucket client log).1 = GoError.nil ↔
        (∃ a, client.CreateBucket (log ++ [.CreateBucket "demo-bucket" "sa-east-1"]) = .ok a) ∨
        ∃ e, client.CreateBucket (log ++ [.CreateBucket "demo-bucket" "sa-east-1"]) = .error e ∧
          e.text = "BucketAlreadyOwnedByYou") := by
  constructor
  · intro err
    cases err with
    | none => simp [isBucketAlreadyExistsError]
    | some e => simp [isBucketAlreadyExistsError]
  · intro client log
    cases hc : client.CreateBucket (log ++ [.CreateBucket "demo-bucket" "sa-east-1"]) with
    | ok a => simp [setupBucket, hc]
    | error e =>
      by_cases ht : e.text = "BucketAlreadyOwnedByYou"
      · simp [setupBucket, hc, isBucketAlreadyExistsError, ht]
      · simp [setupBucket, hc, isBucketAlreadyExistsError, ht]

/-- Witness for C15: an error whose whole text is the bare code is accepted, the
error the SDK renders for an owned bucket is not. -/
theorem isBucketAlreadyExistsError_exact_match_witness :
    (setupBucket bareCodeClient []).1 = GoError.nil ∧
      (setupBucket bucketOwnedClient []).1 ≠ GoError.nil :=
  ⟨(isBucketAlreadyExistsError_exact_match.2 bareCodeClient []).mpr
      (Or.inr ⟨_, rfl, rfl⟩),
    fun h => by
      rcases (isBucketAlreadyExistsError_exact_match.2 bucketOwnedClient []).mp h with
        ⟨a, ha⟩ | ⟨e, he, ht⟩
      · simp [bucketOwnedClient] at ha
      · simp only [bucketOwnedClient, Except.error.injEq] at he
        subst he
        revert ht
        decide⟩

/-! ## The first item of the `GetResources` reply -/

/-- C16 (the code at the failing input): `CreateRestApi` succeeds and
`GetResources` succeeds with an empty item list.  The expression
`rootResourceOutput.Items[0]` panics: the handler writes no response and issues
no `CreateResource`. -/
theorem createAPI_panics_on_empty_items :
    emptyItemsClient.GetResources
        [ApiCall.CreateRestApi "demo-api" "demo", ApiCall.GetResources (some "api-1")] =
      .ok ⟨[]⟩ ∧
    CreateAPI emptyItemsClient (some demoAPIRequest) [] =
      (Outcome.panicked,
        [ApiCall.CreateRestApi "demo-api" "demo", ApiCall.GetResources (some "api-1")]) ∧
    (CreateAPI emptyItemsClient (some demoAPIRequest) []).1.errorMessage = none := by
  have hrun : CreateAPI emptyItemsClient (some demoAPIRequest) [] =
      (Outcome.panicked,
        [ApiCall.CreateRestApi "demo-api" "demo", ApiCall.GetResources (some "api-1")]) := by
    simp [CreateAPI, emptyItemsClient, demoAPIRequest]
  refine ⟨rfl, hrun, ?_⟩
  rw [hrun]
  rfl

/-! ## Concurrent requests on one `SQSController` -/

/-- A goroutine that runs alone from `start` ends, within five steps, with the
outcome, controller fields and log of the sequential handler. -/
theorem runTasks_alone (client : SqsClient) (s : SQSController) (req : SqsRequest)
    (log : List SqsCall) :
    (runTasks client [0, 0, 0, 0, 0] ⟨s, log⟩ [.start req]).1.controller =
        (sqsRoute client s req log).2.1 ∧
      (runTasks client [0, 0, 0, 0, 0] ⟨s, log⟩ [.start req]).1.log =
        (sqsRoute client s req log).2.2 ∧
      (runTasks client [0, 0, 0, 0, 0] ⟨s, log⟩ [.start req]).2 =
        [.done (sqsRoute client s req log).1] := by
  by_cases h : s.queueURL = ""
  · cases hc : client.CreateQueue (log ++ [.CreateQueue s.queueName]) with
    | error e =>
      cases req <;>
        simp [runTasks, stepAt, stepTask, sqsRoute, SendMessage, ReceiveMessage, queueGuard,
          setupQueue, h, hc]
    | ok out =>
      obtain ⟨uo⟩ := out
      cases uo with
      | none =>
        cases req <;>
          simp [runTasks, stepAt, stepTask, sqsRoute, SendMessage, ReceiveMessage, queueGuard,
            setupQueue, h, hc]
      | some u =>
        cases req with
        | send body =>
          cases body with
          | none =>
            simp [runTasks, stepAt, stepTask, sqsRoute, SendMessage, queueGuard,
              setupQueue, h, hc]
          | some m =>
            cases hsm : client.SendMessage (log ++ [.CreateQueue s.queueName,
                .SendMessage u m.Message]) <;>
              simp [runTasks, stepAt, stepTask, sqsRoute, SendMessage, queueGuard,
                setupQueue, h, hc, hsm]
        | receive =>
          cases hr : client.ReceiveMessage (log ++ [.CreateQueue s.queueName,
              .ReceiveMessage u 1 20]) with
          | error e =>
            simp [runTasks, stepAt, stepTask, sqsRoute, ReceiveMessage, queueGuard,
              setupQueue, h, hc, hr]
          | ok result =>
            obtain ⟨msgs⟩ := result
            cases msgs with
            | nil =>
              simp [runTasks, stepAt, stepTask, sqsRoute, ReceiveMessage, queueGuard,
                setupQueue, h, hc, hr]
            | cons first rest =>
              cases hd : client.DeleteMessage (log ++ [.CreateQueue s.queueName,
                  .ReceiveMessage u 1 20, .DeleteMessage u first.ReceiptHandle]) with
              | error e =>
                simp [runTasks, stepAt, stepTask, sqsRoute, ReceiveMessage, queueGuard,
                  setupQueue, h, hc, hr, hd]
              | ok a =>
                cases hb : first.Body <;>
                  simp [runTasks, stepAt, stepTask, sqsRoute, ReceiveMessage, queueGuard,
                    setupQueue, h, hc, hr, hd, hb]
  · cases req with
    | send body =>
      cases body with
      | none =>
        simp [runTasks, stepAt, stepTask, sqsRoute, SendMessage, queueGuard, h]
      | some m =>
        cases hsm : client.SendMessage (log ++ [.SendMessage s.queueURL m.Message]) <;>
          simp [runTasks, stepAt, stepTask, sqsRoute, SendMessage, queueGuard, h, hsm]
    | receive =>
      cases hr : client.ReceiveMessage (log ++ [.ReceiveMessage s.queueURL 1 20]) with
      | error e =>
        simp [runTasks, stepAt, stepTask, sqsRoute, ReceiveMessage, queueGuard, h, hr]
      | ok result =>
        obtain ⟨msgs⟩ := result
        cases msgs with
        | nil =>
          simp [runTasks, stepAt, stepTask, sqsRoute, ReceiveMessage, queueGuard, h, hr]
        | cons first rest =>
          cases hd : client.DeleteMessage (log ++ [.ReceiveMessage s.queueURL 1 20,
              .DeleteMessage s.queueURL first.ReceiptHandle]) with
          | error e =>
            simp [runTasks, stepAt, stepTask, sqsRoute, ReceiveMessage, queueGuard, h, hr, hd]
          | ok a =>
            cases hb : first.Body <;>
              simp [runTasks, stepAt, stepTask, sqsRoute, ReceiveMessage, queueGuard, h, hr,
                hd, hb]


theorem countCreateQueue_append (xs ys : List SqsCall) :
    countCreateQueue (xs ++ ys) = countCreateQueue xs + countCreateQueue ys := by
  simp [countCreateQueue, List.filter_append]

/-- A step issues `CreateQueue` only by using up the goroutine's one pending
call. -/
theorem stepTask_pending (client : SqsClient) (sh : SqsShared) (task : SqsTask) :
    countCreateQueue (stepTask client sh task).1.log + (stepTask client sh task).2.pending ≤
      countCreateQueue sh.log + task.pending := by
  cases task with
  | start req =>
    simp only [stepTask]
    split <;> simp [SqsTask.pending]
  | creating req =>
    simp [stepTask, SqsTask.pending, countCreateQueue_append, countCreateQueue]
  | created req reply =>
    cases reply with
    | error e => simp [stepTask, SqsTask.pending]
    | ok out =>
      simp only [stepTask]
      split <;> simp [SqsTask.pending]
  | ready req =>
    cases req with
    | send body =>
      cases body with
      | none => simp [stepTask, SqsTask.pending]
      | some m =>
        simp only [stepTask]
        split <;> simp [SqsTask.pending, countCreateQueue_append, countCreateQueue]
    | receive =>
      simp only [stepTask]
      split
      · simp [SqsTask.pending, countCreateQueue_append, countCreateQueue]
      · split <;> simp [SqsTask.pending, countCreateQueue_append, countCreateQueue]
  | deleting first =>
    simp only [stepTask]
    split
    · simp [SqsTask.pending, countCreateQueue_append, countCreateQueue]
    · split <;> simp [SqsTask.pending, countCreateQueue_append, countCreateQueue]
  | done o => simp [stepTask]

theorem stepAt_pending (client : SqsClient) (tasks : List SqsTask) :
    ∀ (i : Nat) (sh : SqsShared),
      countCreateQueue (stepAt client i sh tasks).1.log +
          pendingCount (stepAt client i sh tasks).2 ≤
        countCreateQueue sh.log + pendingCount tasks := by
  induction tasks with
  | nil => intro i sh; simp [stepAt]
  | cons task tasks ih =>
    intro i sh
    cases i with
    | zero =>
      have h := stepTask_pending client sh task
      simp only [stepAt, pendingCount, List.map_cons, List.sum_cons] at h ⊢
      omega
    | succ i =>
      have h := ih i sh
      simp only [stepAt, pendingCount, List.map_cons, List.sum_cons] at h ⊢
      omega

theorem runTasks_pending (client : SqsClient) (schedule : List Nat) :
    ∀ (sh : SqsShared) (tasks : List SqsTask),
      countCreateQueue (runTasks client schedule sh tasks).1.log +
          pendingCount (runTasks client schedule sh tasks).2 ≤
        countCreateQueue sh.log + pendingCount tasks := by
  induction schedule with
  | nil => intro sh tasks; simp [runTasks]
  | cons i schedule ih =>
    intro sh tasks
    simp only [runTasks]
    exact le_trans (ih _ _) (stepAt_pending client tasks i sh)

theorem pendingCount_start (reqs : List SqsRequest) :
    pendingCount (reqs.map SqsTask.start) = reqs.length := by
  induction reqs with
  | nil => rfl
  | cons r rs ih =>
    simp only [pendingCount, List.map_cons, List.sum_cons, List.length_cons] at ih ⊢
    simp only [SqsTask.pending]
    omega

/-- With a non-empty URL stored, a goroutine outside `setupQueue` stays outside,
leaves the controller fields alone and addresses its call to the stored URL. -/
theorem stepTask_settled (client : SqsClient) (sh : SqsShared) (task : SqsTask) (u : String)
    (hu : sh.controller.queueURL = u) (hne : u ≠ "") (hout : task.outsideSetup = true) :
    (stepTask client sh task).1.controller = sh.controller ∧
      (stepTask client sh task).2.outsideSetup = true ∧
      ∃ calls, (stepTask client sh task).1.log = sh.log ++ calls ∧
        ∀ c ∈ calls, c.queueUrlOf = some u := by
  have hne2 : ¬ sh.controller.queueURL = "" := by rw [hu]; exact hne
  cases task with
  | start req =>
    have hstep : stepTask client sh (.start req) = (sh, .ready req) := by
      simp [stepTask, hne2]
    rw [hstep]
    exact ⟨rfl, rfl, [], by simp, by simp⟩
  | creating req => simp [SqsTask.outsideSetup] at hout
  | created req reply => simp [SqsTask.outsideSetup] at hout
  | ready req =>
    cases req with
    | send body =>
      cases body with
      | none => exact ⟨rfl, rfl, [], by simp [stepTask], by simp⟩
      | some m =>
        simp only [stepTask]
        split <;> exact ⟨rfl, rfl, [_], rfl, by simp [SqsCall.queueUrlOf, hu]⟩
    | receive =>
      simp only [stepTask]
      split
      · exact ⟨rfl, rfl, [_], rfl, by simp [SqsCall.queueUrlOf, hu]⟩
      · split <;> exact ⟨rfl, rfl, [_], rfl, by simp [SqsCall.queueUrlOf, hu]⟩
  | deleting first =>
    simp only [stepTask]
    split
    · exact ⟨rfl, rfl, [_], rfl, by simp [SqsCall.queueUrlOf, hu]⟩
    · split <;> exact ⟨rfl, rfl, [_], rfl, by simp [SqsCall.queueUrlOf, hu]⟩
  | done o => exact ⟨rfl, rfl, [], by simp [stepTask], by simp⟩

theorem stepAt_settled (client : SqsClient) (u : String) (hne : u ≠ "")
    (tasks : List SqsTask) :
    ∀ (i : Nat) (sh : SqsShared), sh.controller.queueURL = u →
      (∀ t ∈ tasks, t.outsideSetup = true) →
      (stepAt client i sh tasks).1.controller = sh.controller ∧
        (∀ t ∈ (stepAt client i sh tasks).2, t.outsideSetup = true) ∧
        ∃ calls, (stepAt client i sh tasks).1.log = sh.log ++ calls ∧
          ∀ c ∈ calls, c.queueUrlOf = some u := by
  induction tasks with
  | nil =>
    intro i sh _ _
    exact ⟨by simp [stepAt], by simp [stepAt], [], by simp [stepAt], by simp⟩
  | cons task tasks ih =>
    intro i sh hu hall
    cases i with
    | zero =>
      obtain ⟨hc, hout, calls, hlog, hcalls⟩ :=
        stepTask_settled client sh task u hu hne (hall task (by simp))
      refine ⟨hc, ?_, calls, hlog, hcalls⟩
      intro t ht
      simp only [stepAt, List.mem_cons] at ht
      rcases ht with ht | ht
      · rw [ht]; exact hout
      · exact hall t (by simp [ht])
    | succ i =>
      obtain ⟨hc, hout, calls, hlog, hcalls⟩ :=
        ih i sh hu (fun t ht => hall t (by simp [ht]))
      refine ⟨hc, ?_, calls, hlog, hcalls⟩
      intro t ht
      simp only [stepAt, List.mem_cons] at ht
      rcases ht with ht | ht
      · rw [ht]; exact hall task (by simp)
      · exact hout t ht

theorem runTasks_settled (client : SqsClient) (u : String) (hne : u ≠ "")
    (schedule : List Nat) :
    ∀ (sh : SqsShared) (tasks : List SqsTask), sh.controller.queueURL = u →
      (∀ t ∈ tasks, t.outsideSetup = true) →
      (runTasks client schedule sh tasks).1.controller = sh.controller ∧
        ∃ calls, (runTasks client schedule sh tasks).1.log = sh.log ++ calls ∧
          ∀ c ∈ calls, c.queueUrlOf = some u := by
  induction schedule with
  | nil => intro sh tasks _ _; exact ⟨rfl, [], by simp [runTasks], by simp⟩
  | cons i schedule ih =>
    intro sh tasks hu hall
    obtain ⟨hc, hout, calls, hlog, hcalls⟩ := stepAt_settled client u hne tasks i sh hu hall
    obtain ⟨hc2, calls2, hlog2, hcalls2⟩ :=
      ih (stepAt client i sh tasks).1 (stepAt client i sh tasks).2 (by rw [hc]; exact hu) hout
    simp only [runTasks]
    refine ⟨by rw [hc2, hc], calls ++ calls2, by rw [hlog2, hlog, List.append_assoc], ?_⟩
    intro c hcmem
    rcases List.mem_append.mp hcmem with h | h
    · exact hcalls c h
    · exact hcalls2 c h

theorem countCreateQueue_of_queueUrl (calls : List SqsCall) (u : String)
    (h : ∀ c ∈ calls, c.queueUrlOf = some u) : countCreateQueue calls = 0 := by
  induction calls with
  | nil => rfl
  | cons c cs ih =>
    have hc := h c (by simp)
    have hcs := ih (fun d hd => h d (by simp [hd]))
    cases c with
    | CreateQueue n => simp [SqsCall.queueUrlOf] at hc
    | SendMessage a b => simpa [countCreateQueue] using hcs
    | ReceiveMessage a b c => simpa [countCreateQueue] using hcs
    | DeleteMessage a b => simpa [countCreateQueue] using hcs

theorem stepAt_append (client : SqsClient) (task : SqsTask) (rest : List SqsTask) :
    ∀ (pre : List SqsTask) (sh : SqsShared),
      stepAt client pre.length sh (pre ++ task :: rest) =
        ((stepTask client sh task).1, pre ++ (stepTask client sh task).2 :: rest) := by
  intro pre
  induction pre with
  | nil => intro sh; rfl
  | cons p pre ih =>
    intro sh
    show stepAt client (pre.length + 1) sh (p :: (pre ++ task :: rest)) = _
    simp only [stepAt, ih, List.cons_append]

theorem runTasks_append (client : SqsClient) (s1 s2 : List Nat) :
    ∀ (sh : SqsShared) (tasks : List SqsTask),
      runTasks client (s1 ++ s2) sh tasks =
        runTasks client s2 (runTasks client s1 sh tasks).1 (runTasks client s1 sh tasks).2 := by
  induction s1 with
  | nil => intro sh tasks; rfl
  | cons i s1 ih =>
    intro sh tasks
    show runTasks client (i :: (s1 ++ s2)) sh tasks = _
    simp only [runTasks, ih]

/-- The schedule in which the goroutines `offset, offset+1, ...` take one step
each, in that order. -/
theorem range_shift (n offset : Nat) :
    (List.range (n + 1)).map (· + offset) =
      offset :: (List.range n).map (· + (offset + 1)) := by
  rw [List.range_succ_eq_map, List.map_cons, List.map_map]
  simp only [Nat.zero_add, List.cons.injEq, true_and]
  apply List.map_congr_left
  intro a _
  simp only [Function.comp, Nat.succ_eq_add_one]
  omega

/-- With an empty URL stored, goroutines at `start` that take one step each all
enter `setupQueue`. -/
theorem runTasks_all_read (client : SqsClient) (reqs : List SqsRequest) :
    ∀ (pre : List SqsTask) (sh : SqsShared), sh.controller.queueURL = "" →
      runTasks client ((List.range reqs.length).map (· + pre.length)) sh
          (pre ++ reqs.map SqsTask.start) =
        (sh, pre ++ reqs.map SqsTask.creating) := by
  induction reqs with
  | nil => intro pre sh _; simp [runTasks]
  | cons r rs ih =>
    intro pre sh hempty
    rw [List.length_cons, range_shift, List.map_cons]
    simp only [runTasks, stepAt_append, stepTask, hempty, if_true]
    have h := ih (pre ++ [SqsTask.creating r]) sh hempty
    simp only [List.length_append, List.length_singleton, List.append_assoc,
      List.singleton_append] at h
    exact h

/-- Goroutines inside `setupQueue` that take one step each issue one
`CreateQueue` each. -/
theorem runTasks_all_create (client : SqsClient) (reqs : List SqsRequest) :
    ∀ (pre : List SqsTask) (sh : SqsShared),
      (runTasks client ((List.range reqs.length).map (· + pre.length)) sh
          (pre ++ reqs.map SqsTask.creating)).1.log =
        sh.log ++ List.replicate reqs.length (SqsCall.CreateQueue sh.controller.queueName) := by
  induction reqs with
  | nil => intro pre sh; simp [runTasks]
  | cons r rs ih =>
    intro pre sh
    rw [List.length_cons, range_shift, List.map_cons]
    simp only [runTasks, stepAt_append, stepTask]
    have h := ih (pre ++ [SqsTask.created r
        (client.CreateQueue (sh.log ++ [SqsCall.CreateQueue sh.controller.queueName]))])
      { sh with log := sh.log ++ [SqsCall.CreateQueue sh.controller.queueName] }
    simp only [List.length_append, List.length_singleton, List.append_assoc,
      List.singleton_append] at h
    rw [h, List.replicate_succ]

theorem countCreateQueue_replicate (name : String) (n : Nat) :
    countCreateQueue (List.replicate n (SqsCall.CreateQueue name)) = n := by
  induction n with
  | zero => rfl
  | succ n ih =>
    simp only [countCreateQueue, List.replicate_succ, List.filter_cons] at ih ⊢
    simp [ih]

/-- C8 (counterexample): two concurrent `SendMessage` requests on a fresh
controller, scheduled in turn.  Both guards read the empty `queueURL` before
either request has stored a URL, so two `CreateQueue` calls execute, not one;
and on a backend that refuses the first `CreateQueue` and accepts the second,
one caller is answered 500 with the setup error and the other 200. -/
theorem concurrent_requests_create_twice :
    (runTasks sqsOkClient [0, 1, 0, 1, 0, 1, 0, 1] ⟨NewSQSController, []⟩
        [.start (.send (some ⟨"one"⟩)), .start (.send (some ⟨"two"⟩))]).1.log =
      [SqsCall.CreateQueue "demo-queue", SqsCall.CreateQueue "demo-queue",
       SqsCall.SendMessage demoQueueUrl "one", SqsCall.SendMessage demoQueueUrl "two"] ∧
    countCreateQueue
      (runTasks sqsOkClient [0, 1, 0, 1, 0, 1, 0, 1] ⟨NewSQSController, []⟩
        [.start (.send (some ⟨"one"⟩)), .start (.send (some ⟨"two"⟩))]).1.log = 2 ∧
    (runTasks deletedRecentlyClient [0, 1, 0, 1, 0, 1, 0, 1] ⟨NewSQSController, []⟩
        [.start (.send (some ⟨"one"⟩)), .start (.send (some ⟨"two"⟩))]).2 =
      [.done (errorResponse 500 ("erro ao criar fila SQS: " ++ deletedRecentlyError.text)),
       .done (.replied ⟨200, .object [("message", .str "Mensagem enviada com sucesso")]⟩)] ∧
    countCreateQueue
      (runTasks deletedRecentlyClient [0, 1, 0, 1, 0, 1, 0, 1] ⟨NewSQSController, []⟩
        [.start (.send (some ⟨"one"⟩)), .start (.send (some ⟨"two"⟩))]).1.log = 2 := by
  have hempty : NewSQSController.queueURL = "" := rfl
  have hname : NewSQSController.queueName = "demo-queue" := rfl
  have hurl : ¬ demoQueueUrl = "" := by decide
  refine ⟨?_, ?_, ?_, ?_⟩
  · simp [runTasks, stepAt, stepTask, sqsOkClient, hempty, hname, hurl]
  · simp [runTasks, stepAt, stepTask, sqsOkClient, hempty, hname, hurl, countCreateQueue]
  · simp [runTasks, stepAt, stepTask, deletedRecentlyClient, hempty, hname, hurl,
      countCreateQueue]
  · simp [runTasks, stepAt, stepTask, deletedRecentlyClient, hempty, hname, hurl,
      countCreateQueue]

/-- C8 (amended): `SQSController` takes no lock, so N concurrent requests on one
controller do not share one provisioning sequence.  Whatever the schedule, each
request issues at most one `CreateQueue`, at most N in all; when all N guards
read the empty `queueURL` before any request has stored a URL, every request
issues its own `CreateQueue`, N in all; requests that start once a non-empty
URL `u` is stored issue no `CreateQueue`, leave `u` stored and address every
queue operation to `u`; a request that runs alone behaves as the sequential
handler. -/
theorem concurrent_requests_create_per_stale_read :
    (∀ (client : SqsClient) (schedule : List Nat) (sh : SqsShared) (reqs : List SqsRequest),
      countCreateQueue (runTasks client schedule sh (reqs.map SqsTask.start)).1.log ≤
        countCreateQueue sh.log + reqs.length) ∧
    (∀ (client : SqsClient) (sh : SqsShared) (reqs : List SqsRequest),
      sh.controller.queueURL = "" →
      (runTasks client (List.range reqs.length ++ List.range reqs.length) sh
          (reqs.map SqsTask.start)).1.log =
        sh.log ++ List.replicate reqs.length (SqsCall.CreateQueue sh.controller.queueName)) ∧
    (∀ (client : SqsClient) (schedule : List Nat) (sh : SqsShared) (reqs : List SqsRequest)
      (u : String),
      sh.controller.queueURL = u → u ≠ "" →
      (runTasks client schedule sh (reqs.map SqsTask.start)).1.controller.queueURL = u ∧
        countCreateQueue
          (newCalls sh.log (runTasks client schedule sh (reqs.map SqsTask.start)).1.log) = 0 ∧
        ∀ c ∈ newCalls sh.log (runTasks client schedule sh (reqs.map SqsTask.start)).1.log,
          c.queueUrlOf = some u) ∧
    (∀ (client : SqsClient) (s : SQSController) (req : SqsRequest) (log : List SqsCall),
      (runTasks client [0, 0, 0, 0, 0] ⟨s, log⟩ [.start req]).1.controller =
          (sqsRoute client s req log).2.1 ∧
        (runTasks client [0, 0, 0, 0, 0] ⟨s, log⟩ [.start req]).1.log =
          (sqsRoute client s req log).2.2 ∧
        (runTasks client [0, 0, 0, 0, 0] ⟨s, log⟩ [.start req]).2 =
          [.done (sqsRoute client s req log).1]) := by
  refine ⟨?_, ?_, ?_, runTasks_alone⟩
  · intro client schedule sh reqs
    have h := runTasks_pending client schedule sh (reqs.map SqsTask.start)
    rw [pendingCount_start] at h
    omega
  · intro client sh reqs hempty
    have hread := runTasks_all_read client reqs [] sh hempty
    have hcreate := runTasks_all_create client reqs [] sh
    simp only [List.length_nil, Nat.add_zero, List.map_id', List.nil_append] at hread hcreate
    rw [runTasks_append, hread]
    exact hcreate
  · intro client schedule sh reqs u hu hne
    obtain ⟨hc, calls, hlog, hcalls⟩ := runTasks_settled client u hne schedule sh
      (reqs.map SqsTask.start) hu (by
        intro t ht
        obtain ⟨r, _, hr⟩ := List.mem_map.mp ht
        rw [← hr]
        rfl)
    rw [hlog, newCalls_append, hc]
    exact ⟨hu, countCreateQueue_of_queueUrl calls u hcalls, hcalls⟩

/-- Witness for C8 (amended): two requests whose guards both read the empty
field. -/
theorem concurrent_requests_create_per_stale_read_witness :
    (runTasks sqsOkClient (List.range 2 ++ List.range 2) ⟨NewSQSController, []⟩
        ([SqsRequest.send (some ⟨"one"⟩), SqsRequest.send (some ⟨"two"⟩)].map
          SqsTask.start)).1.log =
      [] ++ List.replicate 2 (SqsCall.CreateQueue NewSQSController.queueName) :=
  concurrent_requests_create_per_stale_read.2.1 sqsOkClient ⟨NewSQSController, []⟩
    [.send (some ⟨"one"⟩), .send (some ⟨"two"⟩)] rfl

end Localstack
